import Mathlib

/-!
# Eve board configuration (board/eve/board.c)

A shallow embedding of the charge-port arbitration, the TCPC power and reset
sequencing, the alert-status decoding, the cable-detect wake path, the board
version straps, the charge limit and ramp policy and the trackpad wake switch
of `board/eve/board.c`.

Conventions of the embedding:

* C `int` values are `Int`; a C condition `x` is `x ≠ 0` and `!x` is `x = 0`.
* A function-local `static` variable is passed in and handed back explicitly.
* Calls into other modules (charger driver, GPIO, timer, task, hooks) are
  recorded, in program order, in a list of calls; values read from other
  modules are fields of a "world" structure.
* Constants and helpers that live in headers outside this file
  (`CHARGE_PORT_NONE`, `bd9995x_pd_port_to_chg_port`, `PD_STATUS_TCPC_ALERT_0`,
  `PD_STATUS_TCPC_ALERT_1`, `MSEC`) are parameters.
-/

namespace Eve

/-! ## Charge-port arbitration: data model -/

/-- Charger inputs of the BD9995X, `enum bd9995x_charge_port` of
driver/charger/bd9995x.h: the VBUS input, the VCC input, or both of them
(see the comment in `board_hibernate`). -/
inductive bd9995x_charge_port
  | BD9995X_CHARGE_PORT_VBUS
  | BD9995X_CHARGE_PORT_VCC
  | BD9995X_CHARGE_PORT_BOTH
  deriving DecidableEq, Repr

/-- Calls that `board_set_active_charge_port` makes on other modules. -/
inductive Call
  | charger_discharge_on_ac (enable : Int)
  | cprints_new_chg (charge_port : Int)
  | bd9995x_select_input_port (port : bd9995x_charge_port) (select : Int)
  deriving DecidableEq, Repr

/-- Header-level parts used by the charge-port code that are not defined in
board.c: the constant `CHARGE_PORT_NONE` (charge_manager.h) and the helper
`bd9995x_pd_port_to_chg_port` (driver/charger/bd9995x.h). -/
structure ChargeConfig where
  CHARGE_PORT_NONE : Int
  bd9995x_pd_port_to_chg_port : Int → bd9995x_charge_port

/-- What the other modules answer during one call of
`board_set_active_charge_port`: the battery percentage, whether a port
sources VBUS, and the value returned by the charger's input select. -/
structure ChargeWorld where
  charge_get_percent : Int
  board_vbus_source_enabled : Int → Int
  bd9995x_select_input_port : bd9995x_charge_port → Int → Int

/-- How a call ends: it returns a value, or it stops in `panic`, which
does not return. -/
inductive Outcome
  | returned (rv : Int)
  | panicked (msg : String)
  deriving DecidableEq, Repr

/-- Result of one call of `board_set_active_charge_port`: how it ended, the
value of the static `initialized` afterwards, and the calls it made. -/
structure ChargeResult where
  outcome : Outcome
  initialized : Int
  calls : List Call
  deriving DecidableEq, Repr

/-- Tail of `board_set_active_charge_port` after the `switch`: print,
set `initialized = 1`, and return the result of the input select. -/
def select_and_return (w : ChargeWorld) (charge_port : Int)
    (bd9995x_port : bd9995x_charge_port) (bd9995x_port_select : Int)
    (before : List Call) : ChargeResult :=
  { outcome := Outcome.returned
      (w.bd9995x_select_input_port bd9995x_port bd9995x_port_select)
    initialized := 1
    calls := before ++
      [Call.cprints_new_chg charge_port,
       Call.bd9995x_select_input_port bd9995x_port bd9995x_port_select] }

/-- `int board_set_active_charge_port(int charge_port)` with its static
`initialized` made explicit. -/
def board_set_active_charge_port (cfg : ChargeConfig) (w : ChargeWorld)
    (initialized : Int) (charge_port : Int) : ChargeResult :=
  if initialized = 0 ∧ charge_port = cfg.CHARGE_PORT_NONE ∧
      w.charge_get_percent < 2 then
    { outcome := Outcome.returned (-1), initialized := initialized, calls := [] }
  else if charge_port = 0 ∨ charge_port = 1 then
    -- case 0: case 1:
    if w.board_vbus_source_enabled charge_port ≠ 0 then
      { outcome := Outcome.returned (-1), initialized := initialized, calls := [] }
    else
      select_and_return w charge_port
        (cfg.bd9995x_pd_port_to_chg_port charge_port) 1 []
  else if charge_port = cfg.CHARGE_PORT_NONE then
    -- case CHARGE_PORT_NONE:
    select_and_return w charge_port
      bd9995x_charge_port.BD9995X_CHARGE_PORT_BOTH 0
      (if w.charge_get_percent > 2 then [Call.charger_discharge_on_ac 1] else [])
  else
    -- default:
    { outcome := Outcome.panicked "Invalid charge port\n"
      initialized := initialized, calls := [] }

/-- The input-select calls among a list of calls, in order. -/
def select_calls (cs : List Call) : List Call :=
  cs.filter fun c =>
    match c with
    | Call.bd9995x_select_input_port _ _ => true
    | _ => false

/-- The discharge-on-AC calls among a list of calls, in order. -/
def discharge_calls (cs : List Call) : List Call :=
  cs.filter fun c =>
    match c with
    | Call.charger_discharge_on_ac _ => true
    | _ => false

/-- A request was accepted when the code went on to the charger's input
select (and did not stop at a policy rejection or in `panic`). -/
def accepted (r : ChargeResult) : Prop := select_calls r.calls ≠ []

instance (r : ChargeResult) : Decidable (accepted r) := by
  unfold accepted; infer_instance

/-- A request was rejected by policy: `-1` is returned and nothing was
called. -/
def rejected (r : ChargeResult) : Prop :=
  r.outcome = Outcome.returned (-1) ∧ r.calls = []

instance (r : ChargeResult) : Decidable (rejected r) := by
  unfold rejected; infer_instance

/-- One request of a run: the port asked for and what the other modules
answer while it is served. -/
structure ChargeRequest where
  world : ChargeWorld
  charge_port : Int

/-- Successive calls of `board_set_active_charge_port`, the static
`initialized` carried from one call to the next; a call that stops in
`panic` ends the run. -/
def run_charge_requests (cfg : ChargeConfig) : Int → List ChargeRequest → List ChargeResult
  | _, [] => []
  | initialized, rq :: rest =>
    let r := board_set_active_charge_port cfg rq.world initialized rq.charge_port
    match r.outcome with
    | Outcome.panicked _ => [r]
    | Outcome.returned _ => r :: run_charge_requests cfg r.initialized rest

/-- Value of the static `initialized` at boot (a C static without an
initialiser is zero). -/
def initialized_at_boot : Int := 0

/-- Example configuration: `CHARGE_PORT_NONE` is -1, port 0 is the VBUS input
and port 1 the VCC input. -/
def cfg_example : ChargeConfig :=
  { CHARGE_PORT_NONE := -1
    bd9995x_pd_port_to_chg_port := fun port =>
      if port ≠ 0 then bd9995x_charge_port.BD9995X_CHARGE_PORT_VCC
      else bd9995x_charge_port.BD9995X_CHARGE_PORT_VBUS }

/-- Example world: the given battery percentage, the listed ports source
VBUS, and the input select succeeds. -/
def world_example (percent : Int) (sourcing : List Int) : ChargeWorld :=
  { charge_get_percent := percent
    board_vbus_source_enabled := fun port => if port ∈ sourcing then 1 else 0
    bd9995x_select_input_port := fun _ _ => 0 }

/-! ## GPIO, timer, task and hook calls -/

/-- GPIO signals of gpio_list.h that the functions below name; `other`
stands for the remaining entries of the enum. -/
inductive gpio_signal
  | GPIO_USB_C0_PD_INT_ODL
  | GPIO_USB_C0_PD_RST_L
  | GPIO_USB_C1_PD_INT_ODL
  | GPIO_USB_C1_PD_RST_L
  | GPIO_USB_C0_CABLE_DET
  | GPIO_USB_C1_CABLE_DET
  | GPIO_USB_C0_TCPC_PWR
  | GPIO_USB_C1_TCPC_PWR
  | GPIO_BOARD_VERSION1
  | GPIO_BOARD_VERSION2
  | GPIO_BOARD_VERSION3
  | GPIO_TRACKPAD_INT_L
  | other (n : Nat)
  deriving DecidableEq, Repr

/-- Task identifiers of the task list that the functions below name. -/
inductive task_id
  | TASK_ID_PD_C0
  | TASK_ID_PD_C1
  | other (n : Nat)
  deriving DecidableEq, Repr

/-- Data blocks made by `DECLARE_DEFERRED(f)`, each named `f_data` and
standing for the routine `f`. -/
inductive deferred_data
  | enable_input_devices_data
  | anx74xx_c0_cable_det_handler_data
  | anx74xx_c1_cable_det_handler_data
  deriving DecidableEq, Repr

/-- Calls on the GPIO, timer, task and hook modules, as they appear in the
source. -/
inductive BoardCall
  | gpio_set_level (signal : gpio_signal) (value : Int)
  | msleep (ms : Int)
  | task_set_event (task : task_id) (event : Nat) (wait : Int)
  | hook_call_deferred (data : deferred_data) (delay_us : Int)
  deriving DecidableEq, Repr

/-- Levels of the GPIO lines together with the calls made so far. -/
structure BoardState where
  gpio : gpio_signal → Int
  calls : List BoardCall

/-- Modelled from the spec: `gpio_write(pin, level)` of the GPIO driver,
which is not part of board.c. The line is driven high for a non-zero value
and low for zero, and the call is recorded. -/
def gpio_set_level (signal : gpio_signal) (value : Int) (s : BoardState) : BoardState :=
  { gpio := fun g => if g = signal then (if value ≠ 0 then 1 else 0) else s.gpio g
    calls := s.calls ++ [BoardCall.gpio_set_level signal value] }

/-- The timer call `msleep(ms)`: levels are kept, the call is recorded. -/
def msleep (ms : Int) (s : BoardState) : BoardState :=
  { s with calls := s.calls ++ [BoardCall.msleep ms] }

/-! ## TCPC power and reset sequencing -/

/-- `void board_set_tcpc_power_mode(int port, int mode)`. -/
def board_set_tcpc_power_mode (port : Int) (mode : Int) (s : BoardState) : BoardState :=
  if port = 0 then
    if mode ≠ 0 then
      let s := gpio_set_level gpio_signal.GPIO_USB_C0_TCPC_PWR 1 s
      let s := msleep 10 s
      gpio_set_level gpio_signal.GPIO_USB_C0_PD_RST_L 1 s
    else
      let s := gpio_set_level gpio_signal.GPIO_USB_C0_PD_RST_L 0 s
      let s := msleep 1 s
      gpio_set_level gpio_signal.GPIO_USB_C0_TCPC_PWR 0 s
  else if port = 1 then
    if mode ≠ 0 then
      let s := gpio_set_level gpio_signal.GPIO_USB_C1_TCPC_PWR 1 s
      let s := msleep 10 s
      gpio_set_level gpio_signal.GPIO_USB_C1_PD_RST_L 1 s
    else
      let s := gpio_set_level gpio_signal.GPIO_USB_C1_PD_RST_L 0 s
      let s := msleep 1 s
      gpio_set_level gpio_signal.GPIO_USB_C1_TCPC_PWR 0 s
  else s

/-- `void board_reset_pd_mcu(void)`. -/
def board_reset_pd_mcu (s : BoardState) : BoardState :=
  -- Assert reset
  let s := gpio_set_level gpio_signal.GPIO_USB_C0_PD_RST_L 0 s
  let s := gpio_set_level gpio_signal.GPIO_USB_C1_PD_RST_L 0 s
  let s := msleep 1 s
  -- Disable power
  let s := gpio_set_level gpio_signal.GPIO_USB_C0_TCPC_PWR 0 s
  let s := gpio_set_level gpio_signal.GPIO_USB_C1_TCPC_PWR 0 s
  let s := msleep 10 s
  -- Enable power
  let s := gpio_set_level gpio_signal.GPIO_USB_C0_TCPC_PWR 1 s
  let s := gpio_set_level gpio_signal.GPIO_USB_C1_TCPC_PWR 1 s
  let s := msleep 10 s
  -- Deassert reset
  let s := gpio_set_level gpio_signal.GPIO_USB_C0_PD_RST_L 1 s
  gpio_set_level gpio_signal.GPIO_USB_C1_PD_RST_L 1 s

/-- A board state with the given levels and no call made yet. -/
def fresh (gpio : gpio_signal → Int) : BoardState := { gpio := gpio, calls := [] }

/-- The arguments of the `msleep` calls among a list of calls, in order. -/
def sleeps : List BoardCall → List Int
  | [] => []
  | BoardCall.msleep ms :: rest => ms :: sleeps rest
  | _ :: rest => sleeps rest

/-- `uint16_t tcpc_get_alert_status(void)`; the two `#define`d masks
`PD_STATUS_TCPC_ALERT_0` and `PD_STATUS_TCPC_ALERT_1` are parameters, the
status word is kept in 16 bits. -/
def tcpc_get_alert_status (PD_STATUS_TCPC_ALERT_0 PD_STATUS_TCPC_ALERT_1 : Nat)
    (gpio_get_level : gpio_signal → Int) : Nat :=
  let status : Nat := 0
  let status :=
    if gpio_get_level gpio_signal.GPIO_USB_C0_PD_INT_ODL = 0 then
      if gpio_get_level gpio_signal.GPIO_USB_C0_PD_RST_L ≠ 0 then
        (status ||| PD_STATUS_TCPC_ALERT_0) % 2 ^ 16
      else status
    else status
  let status :=
    if gpio_get_level gpio_signal.GPIO_USB_C1_PD_INT_ODL = 0 then
      if gpio_get_level gpio_signal.GPIO_USB_C1_PD_RST_L ≠ 0 then
        (status ||| PD_STATUS_TCPC_ALERT_1) % 2 ^ 16
      else status
    else status
  status

/-- Levels of the four TCPC lines, every other line low. -/
def tcpc_levels (int0 rst0 int1 rst1 : Int) : gpio_signal → Int
  | gpio_signal.GPIO_USB_C0_PD_INT_ODL => int0
  | gpio_signal.GPIO_USB_C0_PD_RST_L => rst0
  | gpio_signal.GPIO_USB_C1_PD_INT_ODL => int1
  | gpio_signal.GPIO_USB_C1_PD_RST_L => rst1
  | _ => 0

/-! ## Cable-detect wake path (CONFIG_USB_PD_TCPC_LOW_POWER) -/

/-- `static void anx74xx_c0_cable_det_handler(void)`; returns the calls it
makes. `PD_EVENT_TCPC_RESET` is a parameter. -/
def anx74xx_c0_cable_det_handler (PD_EVENT_TCPC_RESET : Nat)
    (gpio_get_level : gpio_signal → Int) : List BoardCall :=
  let cable_det := gpio_get_level gpio_signal.GPIO_USB_C0_CABLE_DET
  let reset_n := gpio_get_level gpio_signal.GPIO_USB_C0_PD_RST_L
  if cable_det ≠ 0 ∧ reset_n = 0 then
    [BoardCall.task_set_event task_id.TASK_ID_PD_C0 PD_EVENT_TCPC_RESET 0]
  else []

/-- `static void anx74xx_c1_cable_det_handler(void)`; returns the calls it
makes. -/
def anx74xx_c1_cable_det_handler (PD_EVENT_TCPC_RESET : Nat)
    (gpio_get_level : gpio_signal → Int) : List BoardCall :=
  let cable_det := gpio_get_level gpio_signal.GPIO_USB_C1_CABLE_DET
  let reset_n := gpio_get_level gpio_signal.GPIO_USB_C1_PD_RST_L
  if cable_det ≠ 0 ∧ reset_n = 0 then
    [BoardCall.task_set_event task_id.TASK_ID_PD_C1 PD_EVENT_TCPC_RESET 0]
  else []

/-- `void anx74xx_cable_det_interrupt(enum gpio_signal signal)`; returns the
calls it makes. `MSEC`, the number of microseconds in a millisecond, is a
parameter. -/
def anx74xx_cable_det_interrupt (MSEC : Int) (signal : gpio_signal) : List BoardCall :=
  if signal = gpio_signal.GPIO_USB_C0_CABLE_DET then
    [BoardCall.hook_call_deferred deferred_data.anx74xx_c0_cable_det_handler_data (2 * MSEC)]
  else
    [BoardCall.hook_call_deferred deferred_data.anx74xx_c1_cable_det_handler_data (2 * MSEC)]

/-- The `task_set_event` calls among a list of calls, in order. -/
def posted_events (cs : List BoardCall) : List BoardCall :=
  cs.filter fun c =>
    match c with
    | BoardCall.task_set_event _ _ _ => true
    | _ => false

/-- Levels of the cable-detect and reset lines of both ports, every other
line low. -/
def cable_levels (det0 rst0 det1 rst1 : Int) : gpio_signal → Int
  | gpio_signal.GPIO_USB_C0_CABLE_DET => det0
  | gpio_signal.GPIO_USB_C0_PD_RST_L => rst0
  | gpio_signal.GPIO_USB_C1_CABLE_DET => det1
  | gpio_signal.GPIO_USB_C1_PD_RST_L => rst1
  | _ => 0

/-! ## Board version straps -/

/-- Calls on the GPIO, timer and console modules made by the board-version
code and by the trackpad wake code, as they appear in the source. -/
inductive GpioCall
  | gpio_set_flags (signal : gpio_signal) (flags : Nat)
  | gpio_get_level (signal : gpio_signal)
  | usleep (us : Int)
  | cprints_board_id (ver : Int)
  | gpio_clear_pending_interrupt (signal : gpio_signal)
  | gpio_enable_interrupt (signal : gpio_signal)
  | gpio_disable_interrupt (signal : gpio_signal)
  deriving DecidableEq, Repr

/-- What lies outside board.c for the strap code: the flag constants
`GPIO_INPUT`, `GPIO_PULL_DOWN`, `GPIO_PULL_UP` (gpio.h), the table of default
flags, and the board itself, `level g f` being the level read on pin `g` while
its flags are `f`. -/
structure PinWorld where
  GPIO_INPUT : Nat
  GPIO_PULL_DOWN : Nat
  GPIO_PULL_UP : Nat
  gpio_get_default_flags : gpio_signal → Nat
  level : gpio_signal → Nat → Int

/-- Current flags of the pins together with the calls made so far. -/
structure PinState where
  flags : gpio_signal → Nat
  calls : List GpioCall

/-- Modelled from the spec: `gpio_set_mode(pin, mode)` of the GPIO driver,
which is not part of board.c. The flags of the pin become the given ones and
the call is recorded. -/
def gpio_set_flags (signal : gpio_signal) (flags : Nat) (s : PinState) : PinState :=
  { flags := fun g => if g = signal then flags else s.flags g
    calls := s.calls ++ [GpioCall.gpio_set_flags signal flags] }

/-- Modelled from the spec: `gpio_read(pin)` of the GPIO driver, which is not
part of board.c. The level is the one the board gives for the current flags
of the pin, and the call is recorded. -/
def gpio_get_level (w : PinWorld) (signal : gpio_signal) (s : PinState) : Int × PinState :=
  (w.level signal (s.flags signal),
   { s with calls := s.calls ++ [GpioCall.gpio_get_level signal] })

/-- The timer call `usleep(us)`: nothing changes, the call is recorded. -/
def usleep (us : Int) (s : PinState) : PinState :=
  { s with calls := s.calls ++ [GpioCall.usleep us] }

/-- `static int gpio_get_ternary(enum gpio_signal gpio)`. -/
def gpio_get_ternary (w : PinWorld) (gpio : gpio_signal) (s : PinState) : Int × PinState :=
  let flags := w.gpio_get_default_flags gpio
  -- Read GPIO with internal pull-down
  let s := gpio_set_flags gpio (w.GPIO_INPUT ||| w.GPIO_PULL_DOWN) s
  let rd := gpio_get_level w gpio s
  let pd := rd.1
  let s := usleep 100 rd.2
  -- Read GPIO with internal pull-up
  let s := gpio_set_flags gpio (w.GPIO_INPUT ||| w.GPIO_PULL_UP) s
  let ru := gpio_get_level w gpio s
  let pu := ru.1
  let s := usleep 100 ru.2
  -- Reset GPIO flags
  let s := gpio_set_flags gpio flags s
  -- Check PU and PD readings to determine tristate
  (if pu ≠ 0 ∧ pd = 0 then 2 else pd, s)

/-- Result of one call of `board_get_version`: the value returned, the static
`ver` afterwards, and the pin state afterwards. -/
structure VersionResult where
  ret : Int
  ver : Int
  state : PinState

/-- `int board_get_version(void)` with its static `ver` made explicit; the
three digits are stored in `uint8_t`, hence the `% 256`. -/
def board_get_version (w : PinWorld) (ver : Int) (s : PinState) : VersionResult :=
  if ver = 0 then
    let r0 := gpio_get_ternary w gpio_signal.GPIO_BOARD_VERSION1 s
    let id0 := r0.1 % 256
    let r1 := gpio_get_ternary w gpio_signal.GPIO_BOARD_VERSION2 r0.2
    let id1 := r1.1 % 256
    let r2 := gpio_get_ternary w gpio_signal.GPIO_BOARD_VERSION3 r1.2
    let id2 := r2.1 % 256
    let ver := (id2 * 9) + (id1 * 3) + id0
    let s := { r2.2 with calls := r2.2.calls ++ [GpioCall.cprints_board_id ver] }
    { ret := ver, ver := ver, state := s }
  else
    { ret := ver, ver := ver, state := s }

/-- Value of the static `ver` at boot (a C static without an initialiser is
zero). -/
def ver_at_boot : Int := 0

/-- A pin state with the given flags and no call made yet. -/
def fresh_pins (flags : gpio_signal → Nat) : PinState := { flags := flags, calls := [] }

/-- Successive calls of `board_get_version`, the static `ver` and the pin
flags carried from one call to the next; for each call, the value returned
and the calls it made. -/
def run_board_get_version (w : PinWorld) : Nat → Int → (gpio_signal → Nat) → List (Int × List GpioCall)
  | 0, _, _ => []
  | n + 1, ver, flags =>
    let r := board_get_version w ver (fresh_pins flags)
    (r.ret, r.state.calls) :: run_board_get_version w n r.ver r.state.flags

/-- The calls that sample a pin (`gpio_get_level`) among a list of calls. -/
def sampling_calls (cs : List GpioCall) : List GpioCall :=
  cs.filter fun c =>
    match c with
    | GpioCall.gpio_get_level _ => true
    | _ => false

/-- How a strap pin is wired on an example board. -/
inductive Strap
  | low
  | high
  | floating
  deriving DecidableEq, Repr

/-- Example board: `GPIO_PULL_UP` is bit 1, `GPIO_PULL_DOWN` bit 2 and
`GPIO_INPUT` bit 5; the three version pins are wired as given and every other
pin is tied low. A floating pin follows its pull resistor. -/
def strapped (v1 v2 v3 : Strap) : PinWorld :=
  { GPIO_INPUT := 32
    GPIO_PULL_DOWN := 4
    GPIO_PULL_UP := 2
    gpio_get_default_flags := fun _ => 32
    level := fun g flags =>
      let wired : Strap :=
        match g with
        | gpio_signal.GPIO_BOARD_VERSION1 => v1
        | gpio_signal.GPIO_BOARD_VERSION2 => v2
        | gpio_signal.GPIO_BOARD_VERSION3 => v3
        | _ => Strap.low
      match wired with
      | Strap.low => 0
      | Strap.high => 1
      | Strap.floating => if flags.testBit 1 then 1 else 0 }

/-- Every pin with its default flags on the example board. -/
def default_flags : gpio_signal → Nat := fun _ => 32

/-- The level pin `g` reads while it is an input with the internal
pull-down: the strapping as the first sample of `gpio_get_ternary` sees it. -/
def pull_down_reading (w : PinWorld) (g : gpio_signal) : Int :=
  w.level g (w.GPIO_INPUT ||| w.GPIO_PULL_DOWN)

/-- The level pin `g` reads while it is an input with the internal pull-up:
the strapping as the second sample of `gpio_get_ternary` sees it. -/
def pull_up_reading (w : PinWorld) (g : gpio_signal) : Int :=
  w.level g (w.GPIO_INPUT ||| w.GPIO_PULL_UP)

/-- The ternary digit of a strap in the words of the spec, section 8:
a pull-down reading of 1 is digit 1 whatever the pull-up reading; pull-down 0
with pull-up 1 is digit 2 (floating); pull-down 0 with pull-up 0 is digit 0.
It is compared with `gpio_get_ternary` below. -/
def spec_ternary_digit (pd pu : Int) : Int :=
  if pd = 1 then 1 else if pu = 1 then 2 else 0

/-- The board version in the words of the spec, section 6:
`version = id2*9 + id1*3 + id0`, the digits being those of the strapping of
GPIO_BOARD_VERSION1, GPIO_BOARD_VERSION2 and GPIO_BOARD_VERSION3. It is
compared with `board_get_version` below. -/
def spec_version (w : PinWorld) : Int :=
  spec_ternary_digit (pull_down_reading w gpio_signal.GPIO_BOARD_VERSION3)
      (pull_up_reading w gpio_signal.GPIO_BOARD_VERSION3) * 9 +
  spec_ternary_digit (pull_down_reading w gpio_signal.GPIO_BOARD_VERSION2)
      (pull_up_reading w gpio_signal.GPIO_BOARD_VERSION2) * 3 +
  spec_ternary_digit (pull_down_reading w gpio_signal.GPIO_BOARD_VERSION1)
      (pull_up_reading w gpio_signal.GPIO_BOARD_VERSION1)

/-! ## Charge limit and ramp policy -/

/-- The `enum charge_supplier` values (charge_manager.h) that board.c names;
`supplier` itself is an `int`. -/
structure ChargeSuppliers where
  CHARGE_SUPPLIER_BC12_CDP : Int
  CHARGE_SUPPLIER_BC12_DCP : Int
  CHARGE_SUPPLIER_BC12_SDP : Int
  CHARGE_SUPPLIER_OTHER : Int

/-- Calls that `board_set_charge_limit` makes on other modules. -/
inductive LimitCall
  | bd9995x_bc12_enable_charging (port : Int) (enable : Int)
  | charge_set_input_current_limit (ma : Int) (mv : Int)
  deriving DecidableEq, Repr

/-- A value wrapped into the range of a 32-bit `int`. -/
def int32 (x : Int) : Int := (x + 2 ^ 31) % 2 ^ 32 - 2 ^ 31

/-- The macro `MAX(a, b)`. -/
def MAX (a b : Int) : Int := if a > b then a else b

/-- The local `bc12_enable` of `board_set_charge_limit`: 1 for the four
suppliers detected by BC1.2, else 0. -/
def bc12_enable (sup : ChargeSuppliers) (supplier : Int) : Int :=
  if supplier = sup.CHARGE_SUPPLIER_BC12_CDP ∨
     supplier = sup.CHARGE_SUPPLIER_BC12_DCP ∨
     supplier = sup.CHARGE_SUPPLIER_BC12_SDP ∨
     supplier = sup.CHARGE_SUPPLIER_OTHER then 1 else 0

/-- `void board_set_charge_limit(int port, int supplier, int charge_ma,
int max_ma, int charge_mv)`; returns the calls it makes. The constant
`CONFIG_CHARGER_INPUT_CURRENT` and the answer of
`bd9995x_bc12_enable_charging` are parameters; `/` of C truncates; the
argument `max_ma` is not used. -/
def board_set_charge_limit (sup : ChargeSuppliers) (CONFIG_CHARGER_INPUT_CURRENT : Int)
    (bc12_result : Int → Int → Int)
    (port supplier charge_ma max_ma charge_mv : Int) : List LimitCall :=
  -- Enable charging trigger by BC1.2 detection
  let bc12_enable : Int := bc12_enable sup supplier
  if bc12_result port bc12_enable ≠ 0 then
    [LimitCall.bd9995x_bc12_enable_charging port bc12_enable]
  else
    let charge_ma := Int.tdiv (int32 (charge_ma * 95)) 100
    [LimitCall.bd9995x_bc12_enable_charging port bc12_enable,
     LimitCall.charge_set_input_current_limit
       (MAX charge_ma CONFIG_CHARGER_INPUT_CURRENT) charge_mv]

/-- The input current limits programmed among a list of calls, as pairs of
current and voltage, in order. -/
def programmed_limits : List LimitCall → List (Int × Int)
  | [] => []
  | LimitCall.charge_set_input_current_limit ma mv :: rest => (ma, mv) :: programmed_limits rest
  | _ :: rest => programmed_limits rest

/-- `int board_is_ramp_allowed(int supplier)`; the constant `SYSTEM_IMAGE_RW`
and the answers of `system_get_image_copy()` and `system_is_locked()` are
parameters. -/
def board_is_ramp_allowed (sup : ChargeSuppliers) (SYSTEM_IMAGE_RW : Int)
    (system_get_image_copy system_is_locked : Int) (supplier : Int) : Int :=
  -- Don't allow ramping in RO when write protected
  if system_get_image_copy ≠ SYSTEM_IMAGE_RW ∧ system_is_locked ≠ 0 then 0
  else
    if supplier = sup.CHARGE_SUPPLIER_BC12_DCP ∨
       supplier = sup.CHARGE_SUPPLIER_BC12_SDP ∨
       supplier = sup.CHARGE_SUPPLIER_BC12_CDP ∨
       supplier = sup.CHARGE_SUPPLIER_OTHER then 1 else 0

/-- Example value of `CONFIG_CHARGER_INPUT_CURRENT`, in mA. -/
def CONFIG_MIN_EXAMPLE : Int := 512

/-- Example supplier numbering. -/
def suppliers_example : ChargeSuppliers :=
  { CHARGE_SUPPLIER_BC12_CDP := 3
    CHARGE_SUPPLIER_BC12_DCP := 2
    CHARGE_SUPPLIER_BC12_SDP := 4
    CHARGE_SUPPLIER_OTHER := 6 }

/-! ## Trackpad wake -/

/-- Result of one call of `trackpad_wake_enable`: the static `prev_enable`
afterwards and the calls made. -/
structure TrackpadResult where
  prev_enable : Int
  calls : List GpioCall
  deriving DecidableEq, Repr

/-- `static void trackpad_wake_enable(int enable)` with its static
`prev_enable` made explicit. -/
def trackpad_wake_enable (prev_enable : Int) (enable : Int) : TrackpadResult :=
  if prev_enable = enable then
    { prev_enable := prev_enable, calls := [] }
  else
    { prev_enable := enable
      calls :=
        if enable ≠ 0 then
          [GpioCall.gpio_clear_pending_interrupt gpio_signal.GPIO_TRACKPAD_INT_L,
           GpioCall.gpio_enable_interrupt gpio_signal.GPIO_TRACKPAD_INT_L]
        else
          [GpioCall.gpio_disable_interrupt gpio_signal.GPIO_TRACKPAD_INT_L] }

/-- Value of the static `prev_enable` at boot (`static int prev_enable = -1`). -/
def prev_enable_at_boot : Int := -1

/-- The functions of board.c that call `trackpad_wake_enable`, each with the
argument it is given and the values it reads before the call:
`lid_angle_peripheral_enable(enable)` with `tablet_get_mode()`,
`chipset_in_state(CHIPSET_STATE_ANY_OFF)` and
`chipset_in_state(CHIPSET_STATE_SUSPEND)`; `board_chipset_shutdown`;
`board_chipset_suspend` with `tablet_get_mode()` and `lid_is_open()`;
`board_chipset_resume`; `board_lid_change` with `lid_is_open()`. -/
inductive WakeCaller
  | lid_angle_peripheral_enable (enable tablet_get_mode any_off suspend : Int)
  | board_chipset_shutdown
  | board_chipset_suspend (tablet_get_mode lid_is_open : Int)
  | board_chipset_resume
  | board_lid_change (lid_is_open : Int)

/-- The argument with which each caller calls `trackpad_wake_enable`, and
`none` when it does not make the call. -/
def wake_argument : WakeCaller → Option Int
  | WakeCaller.lid_angle_peripheral_enable enable tablet_get_mode any_off suspend =>
    let enable := if tablet_get_mode ≠ 0 ∨ any_off ≠ 0 then 0 else enable
    -- keyboard_scan_enable(enable, KB_SCAN_DISABLE_LID_ANGLE)
    let enable := if suspend = 0 then 0 else enable
    some enable
  | WakeCaller.board_chipset_shutdown => some 0
  | WakeCaller.board_chipset_suspend tablet_get_mode lid_is_open =>
    if tablet_get_mode = 0 ∧ lid_is_open ≠ 0 then some 1 else none
  | WakeCaller.board_chipset_resume => some 0
  | WakeCaller.board_lid_change lid_is_open =>
    if lid_is_open = 0 then some 0 else none

/-! ## Theorems: charge-port arbitration -/

/-- C1: for a real port `p` (0 or 1) that sources VBUS, whatever the value of
`initialized` and the battery percentage, `board_set_active_charge_port p`
returns -1 (not success), makes no input-select call and no discharge-on-AC
call, and leaves `initialized` as it was. -/
theorem sourcing_port_is_refused (cfg : ChargeConfig) (w : ChargeWorld)
    (initialized p : Int) (hp : p = 0 ∨ p = 1)
    (hsrc : w.board_vbus_source_enabled p ≠ 0) :
    (board_set_active_charge_port cfg w initialized p).outcome = Outcome.returned (-1) ∧
    (-1 : Int) ≠ 0 ∧
    select_calls (board_set_active_charge_port cfg w initialized p).calls = [] ∧
    discharge_calls (board_set_active_charge_port cfg w initialized p).calls = [] ∧
    (board_set_active_charge_port cfg w initialized p).initialized = initialized := by
  unfold board_set_active_charge_port
  split
  · simp [select_calls, discharge_calls]
  · simp [hp, hsrc, select_calls, discharge_calls]

theorem sourcing_port_is_refused_witness :
    ((0 : Int) = 0 ∨ (0 : Int) = 1) ∧
    (world_example 50 [0]).board_vbus_source_enabled 0 ≠ 0 ∧
    (board_set_active_charge_port cfg_example (world_example 50 [0]) 1 0).outcome
      = Outcome.returned (-1) ∧
    (board_set_active_charge_port cfg_example (world_example 50 [0]) 1 0).initialized = 1 :=
  ⟨by decide, by decide,
   (sourcing_port_is_refused cfg_example (world_example 50 [0]) 1 0
      (by decide) (by decide)).1,
   (sourcing_port_is_refused cfg_example (world_example 50 [0]) 1 0
      (by decide) (by decide)).2.2.2.2⟩

/-- C2: with `initialized` false (0) and a battery percentage below 2,
`board_set_active_charge_port CHARGE_PORT_NONE` returns -1 (not success),
makes no input-select call and no discharge-on-AC call, and leaves
`initialized` false. -/
theorem critical_battery_refuses_port_none (cfg : ChargeConfig) (w : ChargeWorld)
    (hpct : w.charge_get_percent < 2) :
    (board_set_active_charge_port cfg w 0 cfg.CHARGE_PORT_NONE).outcome
      = Outcome.returned (-1) ∧
    (-1 : Int) ≠ 0 ∧
    select_calls (board_set_active_charge_port cfg w 0 cfg.CHARGE_PORT_NONE).calls = [] ∧
    discharge_calls (board_set_active_charge_port cfg w 0 cfg.CHARGE_PORT_NONE).calls = [] ∧
    (board_set_active_charge_port cfg w 0 cfg.CHARGE_PORT_NONE).initialized = 0 := by
  unfold board_set_active_charge_port
  simp [hpct, select_calls, discharge_calls]

theorem critical_battery_refuses_port_none_witness :
    (world_example 1 []).charge_get_percent < 2 ∧
    (board_set_active_charge_port cfg_example (world_example 1 []) 0 (-1)).outcome
      = Outcome.returned (-1) ∧
    (board_set_active_charge_port cfg_example (world_example 1 []) 0 (-1)).initialized = 0 :=
  ⟨by decide,
   (critical_battery_refuses_port_none cfg_example (world_example 1 []) (by decide)).1,
   (critical_battery_refuses_port_none cfg_example (world_example 1 []) (by decide)).2.2.2.2⟩

/-- C3: a real port `p` (0 or 1) that does not source VBUS gets exactly one
input-select call, `bd9995x_select_input_port(bd9995x_pd_port_to_chg_port(p), 1)`,
and the value returned is the result of that call. Hence two such requests in
a row, for `p` and then for `q`, make exactly the two input-select calls for
`p` and then for `q`, each with select = 1, so that the last selection names
the input of `q`; and, the helper mapping a real port to one input, no call
names both inputs with select = 1. -/
theorem real_port_selects_its_own_input (cfg : ChargeConfig) (w1 w2 : ChargeWorld)
    (initialized p q : Int)
    (hnone : cfg.CHARGE_PORT_NONE ≠ 0 ∧ cfg.CHARGE_PORT_NONE ≠ 1)
    (hp : p = 0 ∨ p = 1) (hsrc : w1.board_vbus_source_enabled p = 0) :
    (select_calls (board_set_active_charge_port cfg w1 initialized p).calls
        = [Call.bd9995x_select_input_port (cfg.bd9995x_pd_port_to_chg_port p) 1] ∧
      (board_set_active_charge_port cfg w1 initialized p).outcome
        = Outcome.returned
            (w1.bd9995x_select_input_port (cfg.bd9995x_pd_port_to_chg_port p) 1)) ∧
    ((q = 0 ∨ q = 1) → w2.board_vbus_source_enabled q = 0 →
      ∃ r1 r2,
        run_charge_requests cfg initialized
          [{ world := w1, charge_port := p }, { world := w2, charge_port := q }] = [r1, r2] ∧
        r1.outcome = Outcome.returned
          (w1.bd9995x_select_input_port (cfg.bd9995x_pd_port_to_chg_port p) 1) ∧
        r2.outcome = Outcome.returned
          (w2.bd9995x_select_input_port (cfg.bd9995x_pd_port_to_chg_port q) 1) ∧
        select_calls (r1.calls ++ r2.calls)
          = [Call.bd9995x_select_input_port (cfg.bd9995x_pd_port_to_chg_port p) 1,
             Call.bd9995x_select_input_port (cfg.bd9995x_pd_port_to_chg_port q) 1] ∧
        (select_calls (r1.calls ++ r2.calls)).getLast?
          = some (Call.bd9995x_select_input_port (cfg.bd9995x_pd_port_to_chg_port q) 1) ∧
        ((∀ r : Int, r = 0 ∨ r = 1 →
            cfg.bd9995x_pd_port_to_chg_port r ≠ bd9995x_charge_port.BD9995X_CHARGE_PORT_BOTH) →
          Call.bd9995x_select_input_port bd9995x_charge_port.BD9995X_CHARGE_PORT_BOTH 1
            ∉ r1.calls ++ r2.calls)) := by
  have step : ∀ (w : ChargeWorld) (i x : Int), (x = 0 ∨ x = 1) →
      w.board_vbus_source_enabled x = 0 →
      board_set_active_charge_port cfg w i x
        = select_and_return w x (cfg.bd9995x_pd_port_to_chg_port x) 1 [] := by
    intro w i x hx hs
    have hxn : x ≠ cfg.CHARGE_PORT_NONE := by
      rcases hx with h | h <;> rw [h]
      · exact fun e => hnone.1 e.symm
      · exact fun e => hnone.2 e.symm
    unfold board_set_active_charge_port
    simp [hxn, hx, hs]
  refine ⟨?_, ?_⟩
  · rw [step w1 initialized p hp hsrc]
    simp [select_and_return, select_calls]
  · intro hq hsrc2
    refine ⟨select_and_return w1 p (cfg.bd9995x_pd_port_to_chg_port p) 1 [],
      select_and_return w2 q (cfg.bd9995x_pd_port_to_chg_port q) 1 [], ?_, ?_, ?_, ?_, ?_, ?_⟩
    · simp only [run_charge_requests]
      rw [step w1 initialized p hp hsrc]
      simp only [select_and_return]
      rw [step w2 1 q hq hsrc2]
      simp only [select_and_return]
    · rfl
    · rfl
    · simp [select_calls, select_and_return]
    · simp [select_calls, select_and_return]
    · intro hchg
      have h1 := hchg p hp
      have h2 := hchg q hq
      simp [select_and_return]
      exact ⟨fun e => h1 e.symm, fun e => h2 e.symm⟩

theorem real_port_selects_its_own_input_witness :
    (cfg_example.CHARGE_PORT_NONE ≠ 0 ∧ cfg_example.CHARGE_PORT_NONE ≠ 1) ∧
    ((0 : Int) = 0 ∨ (0 : Int) = 1) ∧
    (world_example 50 []).board_vbus_source_enabled 0 = 0 ∧
    select_calls (board_set_active_charge_port cfg_example (world_example 50 []) 0 0).calls
      = [Call.bd9995x_select_input_port bd9995x_charge_port.BD9995X_CHARGE_PORT_VBUS 1] :=
  ⟨by decide, by decide, by decide,
   (real_port_selects_its_own_input cfg_example (world_example 50 []) (world_example 50 [])
      0 0 1 (by decide) (by decide) (by decide)).1.1⟩

/-- C4: `board_set_active_charge_port CHARGE_PORT_NONE` is accepted exactly
when `initialized` is true or the battery percentage is at least 2, and is
rejected (-1, nothing called) otherwise. When accepted its one input-select
call is `bd9995x_select_input_port(BD9995X_CHARGE_PORT_BOTH, 0)`. It calls
`charger_discharge_on_ac(1)` exactly when the battery percentage is above 2,
and makes no discharge-on-AC call at all at 2 or below. -/
theorem port_none_acceptance_and_discharge (cfg : ChargeConfig) (w : ChargeWorld)
    (initialized : Int)
    (hnone : cfg.CHARGE_PORT_NONE ≠ 0 ∧ cfg.CHARGE_PORT_NONE ≠ 1) :
    (accepted (board_set_active_charge_port cfg w initialized cfg.CHARGE_PORT_NONE)
      ↔ (initialized ≠ 0 ∨ w.charge_get_percent ≥ 2)) ∧
    (¬ accepted (board_set_active_charge_port cfg w initialized cfg.CHARGE_PORT_NONE)
      → rejected (board_set_active_charge_port cfg w initialized cfg.CHARGE_PORT_NONE)) ∧
    (accepted (board_set_active_charge_port cfg w initialized cfg.CHARGE_PORT_NONE) →
      select_calls (board_set_active_charge_port cfg w initialized cfg.CHARGE_PORT_NONE).calls
        = [Call.bd9995x_select_input_port bd9995x_charge_port.BD9995X_CHARGE_PORT_BOTH 0]) ∧
    (Call.charger_discharge_on_ac 1
        ∈ (board_set_active_charge_port cfg w initialized cfg.CHARGE_PORT_NONE).calls
      ↔ w.charge_get_percent > 2) ∧
    (w.charge_get_percent ≤ 2 →
      discharge_calls
        (board_set_active_charge_port cfg w initialized cfg.CHARGE_PORT_NONE).calls = []) := by
  obtain ⟨h0, h1⟩ := hnone
  unfold board_set_active_charge_port accepted rejected
  by_cases hrej : initialized = 0 ∧ w.charge_get_percent < 2
  · obtain ⟨hi, hlt⟩ := hrej
    have hle : w.charge_get_percent ≤ 2 := by omega
    have hng : ¬ w.charge_get_percent > 2 := by omega
    simp [hi, hlt, select_calls, discharge_calls]
    omega
  · have hcond : ¬ (initialized = 0 ∧ cfg.CHARGE_PORT_NONE = cfg.CHARGE_PORT_NONE ∧
        w.charge_get_percent < 2) := fun h => hrej ⟨h.1, h.2.2⟩
    rw [if_neg hcond]
    have hacc : initialized ≠ 0 ∨ w.charge_get_percent ≥ 2 := by
      by_cases hi : initialized = 0
      · right
        by_contra hlt
        exact hrej ⟨hi, by omega⟩
      · left; exact hi
    by_cases hgt : w.charge_get_percent > 2
    · have hnle : ¬ w.charge_get_percent ≤ 2 := by omega
      simp [h0, h1, hgt, hnle, hacc, select_and_return, select_calls, discharge_calls]
    · have hle : w.charge_get_percent ≤ 2 := by omega
      simp [h0, h1, hgt, hle, hacc, select_and_return, select_calls, discharge_calls]

theorem port_none_acceptance_and_discharge_witness :
    (cfg_example.CHARGE_PORT_NONE ≠ 0 ∧ cfg_example.CHARGE_PORT_NONE ≠ 1) ∧
    (accepted (board_set_active_charge_port cfg_example (world_example 2 []) 0
        cfg_example.CHARGE_PORT_NONE)
      ↔ ((0 : Int) ≠ 0 ∨ (world_example 2 []).charge_get_percent ≥ 2)) :=
  ⟨by decide,
   (port_none_acceptance_and_discharge cfg_example (world_example 2 []) 0 (by decide)).1⟩

/-- C5: for a `charge_port` other than 0, 1 and `CHARGE_PORT_NONE`, whatever
the value of `initialized` and the battery percentage,
`board_set_active_charge_port` stops in `panic("Invalid charge port\n")`: it
returns no value, makes no call (so no input-select call), and `initialized`
is not set. -/
theorem invalid_port_panics (cfg : ChargeConfig) (w : ChargeWorld)
    (initialized charge_port : Int)
    (h0 : charge_port ≠ 0) (h1 : charge_port ≠ 1)
    (hnone : charge_port ≠ cfg.CHARGE_PORT_NONE) :
    (board_set_active_charge_port cfg w initialized charge_port).outcome
      = Outcome.panicked "Invalid charge port\n" ∧
    (∀ rv, (board_set_active_charge_port cfg w initialized charge_port).outcome
      ≠ Outcome.returned rv) ∧
    (board_set_active_charge_port cfg w initialized charge_port).calls = [] ∧
    select_calls (board_set_active_charge_port cfg w initialized charge_port).calls = [] ∧
    (board_set_active_charge_port cfg w initialized charge_port).initialized
      = initialized := by
  unfold board_set_active_charge_port
  simp [h0, h1, hnone, select_calls]

theorem invalid_port_panics_witness :
    (2 : Int) ≠ 0 ∧ (2 : Int) ≠ 1 ∧ (2 : Int) ≠ cfg_example.CHARGE_PORT_NONE ∧
    (board_set_active_charge_port cfg_example (world_example 50 []) 0 2).outcome
      = Outcome.panicked "Invalid charge port\n" ∧
    (board_set_active_charge_port cfg_example (world_example 50 []) 0 2).initialized = 0 :=
  ⟨by decide, by decide, by decide,
   (invalid_port_panics cfg_example (world_example 50 []) 0 2
      (by decide) (by decide) (by decide)).1,
   (invalid_port_panics cfg_example (world_example 50 []) 0 2
      (by decide) (by decide) (by decide)).2.2.2.2⟩

/-- The tail of the function always counts as accepted and sets the flag. -/
theorem select_and_return_accepted (w : ChargeWorld) (charge_port : Int)
    (bp : bd9995x_charge_port) (sel : Int) (before : List Call) :
    accepted (select_and_return w charge_port bp sel before) ∧
    (select_and_return w charge_port bp sel before).initialized = 1 ∧
    (∃ rv, (select_and_return w charge_port bp sel before).outcome = Outcome.returned rv) := by
  refine ⟨?_, rfl, ⟨_, rfl⟩⟩
  simp [accepted, select_calls, select_and_return]

/-- Every call ends in one of three ways: untouched state and no call (a
rejection or a panic), or the tail `select_and_return`. -/
theorem charge_step_shape (cfg : ChargeConfig) (w : ChargeWorld)
    (initialized charge_port : Int) :
    ((board_set_active_charge_port cfg w initialized charge_port).calls = [] ∧
      (board_set_active_charge_port cfg w initialized charge_port).initialized
        = initialized) ∨
    (∃ bp sel before,
      board_set_active_charge_port cfg w initialized charge_port
        = select_and_return w charge_port bp sel before) := by
  unfold board_set_active_charge_port
  split_ifs <;> first | exact Or.inl ⟨rfl, rfl⟩ | exact Or.inr ⟨_, _, _, rfl⟩

/-- An accepted call returns and leaves `initialized = 1`. -/
theorem accepted_sets_initialized (cfg : ChargeConfig) (w : ChargeWorld)
    (initialized charge_port : Int)
    (h : accepted (board_set_active_charge_port cfg w initialized charge_port)) :
    (board_set_active_charge_port cfg w initialized charge_port).initialized = 1 ∧
    (∃ rv, (board_set_active_charge_port cfg w initialized charge_port).outcome
      = Outcome.returned rv) := by
  rcases charge_step_shape cfg w initialized charge_port with ⟨hc, _⟩ | ⟨bp, sel, before, he⟩
  · exact absurd (by simp [hc, select_calls]) h
  · rw [he]
    exact (select_and_return_accepted w charge_port bp sel before).2

/-- A call that is not accepted leaves `initialized` as it was. -/
theorem not_accepted_keeps_initialized (cfg : ChargeConfig) (w : ChargeWorld)
    (initialized charge_port : Int)
    (h : ¬ accepted (board_set_active_charge_port cfg w initialized charge_port)) :
    (board_set_active_charge_port cfg w initialized charge_port).initialized
      = initialized := by
  rcases charge_step_shape cfg w initialized charge_port with ⟨_, hi⟩ | ⟨bp, sel, before, he⟩
  · exact hi
  · rw [he] at h
    exact absurd (select_and_return_accepted w charge_port bp sel before).1 h

/-- With `initialized` set, a request for `CHARGE_PORT_NONE` is accepted. -/
theorem port_none_accepted_when_initialized (cfg : ChargeConfig) (w : ChargeWorld)
    (initialized : Int)
    (hnone : cfg.CHARGE_PORT_NONE ≠ 0 ∧ cfg.CHARGE_PORT_NONE ≠ 1)
    (hi : initialized ≠ 0) :
    accepted (board_set_active_charge_port cfg w initialized cfg.CHARGE_PORT_NONE) := by
  unfold board_set_active_charge_port
  simp only [hi, false_and, if_false, hnone.1, hnone.2, or_self, if_true]
  exact (select_and_return_accepted _ _ _ _ _).1

/-- Which requests are accepted. -/
theorem accepted_iff (cfg : ChargeConfig) (w : ChargeWorld)
    (initialized charge_port : Int)
    (hnone : cfg.CHARGE_PORT_NONE ≠ 0 ∧ cfg.CHARGE_PORT_NONE ≠ 1) :
    accepted (board_set_active_charge_port cfg w initialized charge_port) ↔
      (((charge_port = 0 ∨ charge_port = 1) ∧ w.board_vbus_source_enabled charge_port = 0) ∨
       (charge_port = cfg.CHARGE_PORT_NONE ∧
          (initialized ≠ 0 ∨ w.charge_get_percent ≥ 2))) := by
  obtain ⟨h0, h1⟩ := hnone
  by_cases hp : charge_port = 0 ∨ charge_port = 1
  · have hn : charge_port ≠ cfg.CHARGE_PORT_NONE := by
      rcases hp with h | h <;> rw [h]
      · exact fun e => h0 e.symm
      · exact fun e => h1 e.symm
    unfold board_set_active_charge_port
    by_cases hs : w.board_vbus_source_enabled charge_port = 0
    · simp only [hn, false_and, and_false, if_false, hp, if_true, hs, ne_eq,
        not_true_eq_false, true_and, or_false, iff_true]
      exact (select_and_return_accepted _ _ _ _ _).1
    · simp [hn, hp, hs, accepted, select_calls]
  · by_cases hn : charge_port = cfg.CHARGE_PORT_NONE
    · subst hn
      by_cases hi : initialized = 0
      · by_cases hlt : w.charge_get_percent < 2
        · have hng : ¬ w.charge_get_percent ≥ 2 := by omega
          unfold board_set_active_charge_port
          simp [hi, hlt, hp, accepted, select_calls]
        · have hge : w.charge_get_percent ≥ 2 := by omega
          unfold board_set_active_charge_port
          simp only [hi, hlt, and_false, if_false, hp, if_true, true_and, ne_eq,
            not_true_eq_false, false_or, hge, or_true, iff_true]
          exact (select_and_return_accepted _ _ _ _ _).1
      · simp only [hp, false_and, false_or, true_and, ne_eq, hi, not_false_eq_true,
          true_or, iff_true]
        exact port_none_accepted_when_initialized cfg w initialized ⟨h0, h1⟩ hi
    · unfold board_set_active_charge_port
      simp [hn, hp, accepted, select_calls]

/-- The flag is never cleared by a call. -/
theorem initialized_stays_set (cfg : ChargeConfig) (w : ChargeWorld)
    (initialized charge_port : Int) (hi : initialized ≠ 0) :
    (board_set_active_charge_port cfg w initialized charge_port).initialized ≠ 0 := by
  by_cases h : accepted (board_set_active_charge_port cfg w initialized charge_port)
  · rw [(accepted_sets_initialized cfg w initialized charge_port h).1]
    decide
  · rw [not_accepted_keeps_initialized cfg w initialized charge_port h]
    exact hi

/-- Unfolding of a run at its first request. -/
theorem run_charge_requests_cons (cfg : ChargeConfig) (initialized : Int)
    (rq : ChargeRequest) (rest : List ChargeRequest) :
    (run_charge_requests cfg initialized (rq :: rest)
        = [board_set_active_charge_port cfg rq.world initialized rq.charge_port] ∧
      ∃ msg, (board_set_active_charge_port cfg rq.world initialized rq.charge_port).outcome
        = Outcome.panicked msg) ∨
    (run_charge_requests cfg initialized (rq :: rest)
        = board_set_active_charge_port cfg rq.world initialized rq.charge_port ::
            run_charge_requests cfg
              (board_set_active_charge_port cfg rq.world initialized rq.charge_port).initialized
              rest ∧
      ∃ rv, (board_set_active_charge_port cfg rq.world initialized rq.charge_port).outcome
        = Outcome.returned rv) := by
  cases h : (board_set_active_charge_port cfg rq.world initialized rq.charge_port).outcome with
  | returned rv =>
    right
    refine ⟨?_, rv, rfl⟩
    simp only [run_charge_requests, h]
  | panicked msg =>
    left
    refine ⟨?_, msg, rfl⟩
    simp only [run_charge_requests, h]

/-- In a run started with the flag set, every request for `CHARGE_PORT_NONE`
that is reached is accepted. -/
theorem run_port_none_accepted (cfg : ChargeConfig)
    (hnone : cfg.CHARGE_PORT_NONE ≠ 0 ∧ cfg.CHARGE_PORT_NONE ≠ 1) :
    ∀ (reqs : List ChargeRequest) (initialized : Int) (j : Nat)
      (rq : ChargeRequest) (rj : ChargeResult),
      initialized ≠ 0 → reqs[j]? = some rq → rq.charge_port = cfg.CHARGE_PORT_NONE →
      (run_charge_requests cfg initialized reqs)[j]? = some rj → accepted rj := by
  intro reqs
  induction reqs with
  | nil => intro initialized j rq rj _ h; simp at h
  | cons rq0 rest ih =>
    intro initialized j rq rj hi hrq hport hrj
    have hstep := initialized_stays_set cfg rq0.world initialized rq0.charge_port hi
    cases j with
    | zero =>
      simp only [List.getElem?_cons_zero, Option.some.injEq] at hrq
      subst hrq
      rcases run_charge_requests_cons cfg initialized rq0 rest with ⟨he, _⟩ | ⟨he, _⟩ <;>
        (rw [he] at hrj
         simp only [List.getElem?_cons_zero, Option.some.injEq] at hrj
         subst hrj
         rw [hport]
         exact port_none_accepted_when_initialized cfg _ initialized hnone hi)
    | succ j =>
      simp only [List.getElem?_cons_succ] at hrq
      rcases run_charge_requests_cons cfg initialized rq0 rest with ⟨he, _⟩ | ⟨he, _⟩
      · rw [he] at hrj
        simp at hrj
      · rw [he] at hrj
        simp only [List.getElem?_cons_succ] at hrj
        exact ih _ j rq rj hstep hrq hport hrj

/-- In any run, a request for `CHARGE_PORT_NONE` that comes after an accepted
request is accepted. -/
theorem run_port_none_after_accepted (cfg : ChargeConfig)
    (hnone : cfg.CHARGE_PORT_NONE ≠ 0 ∧ cfg.CHARGE_PORT_NONE ≠ 1) :
    ∀ (reqs : List ChargeRequest) (initialized : Int) (i j : Nat)
      (ri rj : ChargeResult) (rq : ChargeRequest),
      i < j → (run_charge_requests cfg initialized reqs)[i]? = some ri → accepted ri →
      reqs[j]? = some rq → rq.charge_port = cfg.CHARGE_PORT_NONE →
      (run_charge_requests cfg initialized reqs)[j]? = some rj → accepted rj := by
  intro reqs
  induction reqs with
  | nil => intro initialized i j ri rj rq _ _ _ h; simp at h
  | cons rq0 rest ih =>
    intro initialized i j ri rj rq hij hri hacc hrq hport hrj
    cases j with
    | zero => omega
    | succ j =>
      simp only [List.getElem?_cons_succ] at hrq
      rcases run_charge_requests_cons cfg initialized rq0 rest with ⟨he, _⟩ | ⟨he, _⟩
      · rw [he] at hrj
        simp at hrj
      · rw [he] at hrj hri
        simp only [List.getElem?_cons_succ] at hrj
        cases i with
        | zero =>
          simp only [List.getElem?_cons_zero, Option.some.injEq] at hri
          subst hri
          have h1 := (accepted_sets_initialized cfg rq0.world initialized rq0.charge_port hacc).1
          rw [h1] at hrj
          exact run_port_none_accepted cfg hnone rest 1 j rq rj (by decide) hrq hport hrj
        | succ i =>
          simp only [List.getElem?_cons_succ] at hri
          exact ih _ i j ri rj rq (by omega) hri hacc hrq hport hrj

/-- C6: the static `initialized` starts false (0); a call never clears it;
after a call it is true exactly when it was true before or the call was
accepted, where the accepted calls are those for a real port that does not
source VBUS and those for `CHARGE_PORT_NONE` made with the flag set or a
battery percentage of at least 2; the value of the flag after a call does not
depend on what the input select returns. Consequently, in any run of calls
from boot, a request for `CHARGE_PORT_NONE` that comes after an accepted
request is accepted, not rejected. -/
theorem initialized_flag_latches (cfg : ChargeConfig)
    (hnone : cfg.CHARGE_PORT_NONE ≠ 0 ∧ cfg.CHARGE_PORT_NONE ≠ 1) :
    initialized_at_boot = 0 ∧
    (∀ (w : ChargeWorld) (initialized charge_port : Int),
      (initialized ≠ 0 →
        (board_set_active_charge_port cfg w initialized charge_port).initialized ≠ 0) ∧
      ((board_set_active_charge_port cfg w initialized charge_port).initialized ≠ 0 ↔
        (initialized ≠ 0 ∨
          accepted (board_set_active_charge_port cfg w initialized charge_port))) ∧
      (accepted (board_set_active_charge_port cfg w initialized charge_port) ↔
        (((charge_port = 0 ∨ charge_port = 1) ∧
            w.board_vbus_source_enabled charge_port = 0) ∨
         (charge_port = cfg.CHARGE_PORT_NONE ∧
            (initialized ≠ 0 ∨ w.charge_get_percent ≥ 2)))) ∧
      (∀ result : bd9995x_charge_port → Int → Int,
        (board_set_active_charge_port cfg
            { w with bd9995x_select_input_port := result } initialized charge_port).initialized
          = (board_set_active_charge_port cfg w initialized charge_port).initialized)) ∧
    (∀ (reqs : List ChargeRequest) (i j : Nat) (ri rj : ChargeResult) (rq : ChargeRequest),
      i < j →
      (run_charge_requests cfg initialized_at_boot reqs)[i]? = some ri → accepted ri →
      reqs[j]? = some rq → rq.charge_port = cfg.CHARGE_PORT_NONE →
      (run_charge_requests cfg initialized_at_boot reqs)[j]? = some rj →
      accepted rj ∧ ¬ rejected rj) := by
  refine ⟨rfl, ?_, ?_⟩
  · intro w initialized charge_port
    refine ⟨initialized_stays_set cfg w initialized charge_port, ?_,
      accepted_iff cfg w initialized charge_port hnone, ?_⟩
    · by_cases h : accepted (board_set_active_charge_port cfg w initialized charge_port)
      · rw [(accepted_sets_initialized cfg w initialized charge_port h).1]
        simp [h]
      · rw [not_accepted_keeps_initialized cfg w initialized charge_port h]
        simp [h]
    · intro result
      unfold board_set_active_charge_port
      split_ifs <;> rfl
  · intro reqs i j ri rj rq hij hri hacc hrq hport hrj
    have h := run_port_none_after_accepted cfg hnone reqs initialized_at_boot i j ri rj rq
      hij hri hacc hrq hport hrj
    refine ⟨h, ?_⟩
    intro hr
    apply h
    simp [hr.2, select_calls]

theorem initialized_flag_latches_witness :
    (cfg_example.CHARGE_PORT_NONE ≠ 0 ∧ cfg_example.CHARGE_PORT_NONE ≠ 1) ∧
    initialized_at_boot = 0 ∧
    ((board_set_active_charge_port cfg_example (world_example 1 []) 0 1).initialized ≠ 0 ↔
      ((0 : Int) ≠ 0 ∨
        accepted (board_set_active_charge_port cfg_example (world_example 1 []) 0 1))) :=
  ⟨by decide,
   (initialized_flag_latches cfg_example (by decide)).1,
   ((initialized_flag_latches cfg_example (by decide)).2.1 (world_example 1 []) 0 1).2.1⟩

/-! ## Theorems: TCPC alert status -/

/-- The status word is the OR of the masks of the ports whose interrupt line
is low and whose reset line is not low, for single-bit masks inside the
16-bit word and arbitrary integer levels. -/
theorem alert_status_closed_form (b0 b1 : Nat) (lv : gpio_signal → Int)
    (hb0 : b0 < 16) (hb1 : b1 < 16) :
    tcpc_get_alert_status (2 ^ b0) (2 ^ b1) lv =
      (if lv gpio_signal.GPIO_USB_C0_PD_INT_ODL = 0 ∧
          lv gpio_signal.GPIO_USB_C0_PD_RST_L ≠ 0 then 2 ^ b0 else 0) |||
      (if lv gpio_signal.GPIO_USB_C1_PD_INT_ODL = 0 ∧
          lv gpio_signal.GPIO_USB_C1_PD_RST_L ≠ 0 then 2 ^ b1 else 0) := by
  have p0 : 2 ^ b0 < 2 ^ 16 := Nat.pow_lt_pow_right (by decide) hb0
  have p1 : 2 ^ b1 < 2 ^ 16 := Nat.pow_lt_pow_right (by decide) hb1
  have m1 : ∀ x, x < 2 ^ 16 → (x ||| 2 ^ b1) % 2 ^ 16 = x ||| 2 ^ b1 :=
    fun x hx => Nat.mod_eq_of_lt (Nat.or_lt_two_pow hx p1)
  unfold tcpc_get_alert_status
  by_cases h1 : lv gpio_signal.GPIO_USB_C0_PD_INT_ODL = 0 <;>
  by_cases h2 : lv gpio_signal.GPIO_USB_C0_PD_RST_L = 0 <;>
  by_cases h3 : lv gpio_signal.GPIO_USB_C1_PD_INT_ODL = 0 <;>
  by_cases h4 : lv gpio_signal.GPIO_USB_C1_PD_RST_L = 0 <;>
  simp only [h1, h2, h3, h4, if_true, if_false, ne_eq, not_true_eq_false,
    not_false_eq_true, and_true, and_false, and_self, Nat.zero_or, Nat.or_zero,
    Nat.mod_eq_of_lt p0, Nat.mod_eq_of_lt p1, m1 _ p0]

/-- Bit `i` of the alert status, for single-bit masks inside the 16-bit
word and arbitrary integer levels. -/
theorem alert_status_testBit (b0 b1 : Nat) (lv : gpio_signal → Int)
    (hb0 : b0 < 16) (hb1 : b1 < 16) (i : Nat) :
    (tcpc_get_alert_status (2 ^ b0) (2 ^ b1) lv).testBit i = true ↔
      ((i = b0 ∧ lv gpio_signal.GPIO_USB_C0_PD_INT_ODL = 0 ∧
          lv gpio_signal.GPIO_USB_C0_PD_RST_L ≠ 0) ∨
       (i = b1 ∧ lv gpio_signal.GPIO_USB_C1_PD_INT_ODL = 0 ∧
          lv gpio_signal.GPIO_USB_C1_PD_RST_L ≠ 0)) := by
  rw [alert_status_closed_form b0 b1 lv hb0 hb1, Nat.testBit_or]
  by_cases c0 : lv gpio_signal.GPIO_USB_C0_PD_INT_ODL = 0 ∧
      lv gpio_signal.GPIO_USB_C0_PD_RST_L ≠ 0
  · by_cases c1 : lv gpio_signal.GPIO_USB_C1_PD_INT_ODL = 0 ∧
        lv gpio_signal.GPIO_USB_C1_PD_RST_L ≠ 0
    · rw [if_pos c0, if_pos c1, Nat.testBit_two_pow, Nat.testBit_two_pow]
      have e0 : (i = b0 ∧ lv gpio_signal.GPIO_USB_C0_PD_INT_ODL = 0 ∧
          lv gpio_signal.GPIO_USB_C0_PD_RST_L ≠ 0) ↔ b0 = i :=
        ⟨fun h => h.1.symm, fun h => ⟨h.symm, c0⟩⟩
      have e1 : (i = b1 ∧ lv gpio_signal.GPIO_USB_C1_PD_INT_ODL = 0 ∧
          lv gpio_signal.GPIO_USB_C1_PD_RST_L ≠ 0) ↔ b1 = i :=
        ⟨fun h => h.1.symm, fun h => ⟨h.symm, c1⟩⟩
      rw [e0, e1]
      simp
    · rw [if_pos c0, if_neg c1, Nat.testBit_two_pow, Nat.zero_testBit]
      have e0 : (i = b0 ∧ lv gpio_signal.GPIO_USB_C0_PD_INT_ODL = 0 ∧
          lv gpio_signal.GPIO_USB_C0_PD_RST_L ≠ 0) ↔ b0 = i :=
        ⟨fun h => h.1.symm, fun h => ⟨h.symm, c0⟩⟩
      have e1 : (i = b1 ∧ lv gpio_signal.GPIO_USB_C1_PD_INT_ODL = 0 ∧
          lv gpio_signal.GPIO_USB_C1_PD_RST_L ≠ 0) ↔ False :=
        ⟨fun h => c1 h.2, False.elim⟩
      rw [e0, e1]
      simp
  · by_cases c1 : lv gpio_signal.GPIO_USB_C1_PD_INT_ODL = 0 ∧
        lv gpio_signal.GPIO_USB_C1_PD_RST_L ≠ 0
    · rw [if_neg c0, if_pos c1, Nat.testBit_two_pow, Nat.zero_testBit]
      have e0 : (i = b0 ∧ lv gpio_signal.GPIO_USB_C0_PD_INT_ODL = 0 ∧
          lv gpio_signal.GPIO_USB_C0_PD_RST_L ≠ 0) ↔ False :=
        ⟨fun h => c0 h.2, False.elim⟩
      have e1 : (i = b1 ∧ lv gpio_signal.GPIO_USB_C1_PD_INT_ODL = 0 ∧
          lv gpio_signal.GPIO_USB_C1_PD_RST_L ≠ 0) ↔ b1 = i :=
        ⟨fun h => h.1.symm, fun h => ⟨h.symm, c1⟩⟩
      rw [e0, e1]
      simp
    · rw [if_neg c0, if_neg c1, Nat.zero_testBit]
      have e0 : (i = b0 ∧ lv gpio_signal.GPIO_USB_C0_PD_INT_ODL = 0 ∧
          lv gpio_signal.GPIO_USB_C0_PD_RST_L ≠ 0) ↔ False :=
        ⟨fun h => c0 h.2, False.elim⟩
      have e1 : (i = b1 ∧ lv gpio_signal.GPIO_USB_C1_PD_INT_ODL = 0 ∧
          lv gpio_signal.GPIO_USB_C1_PD_RST_L ≠ 0) ↔ False :=
        ⟨fun h => c1 h.2, False.elim⟩
      rw [e0, e1]
      simp

/-- C7: with `PD_STATUS_TCPC_ALERT_0` and `PD_STATUS_TCPC_ALERT_1` two
different single bits of the 16-bit status word, and for every combination
of levels (0 or 1) of the four lines, bit `PD_STATUS_TCPC_ALERT_p` of
`tcpc_get_alert_status()` is set exactly when the interrupt line of port `p`
reads 0 (asserted, active low) and the reset line of port `p` reads 1
(deasserted); each port's bit depends on that port's lines only, and no other
bit is set. -/
theorem alert_status_per_port (A0 A1 b0 b1 : Nat) (lv : gpio_signal → Int)
    (hA0 : A0 = 2 ^ b0) (hA1 : A1 = 2 ^ b1) (hb0 : b0 < 16) (hb1 : b1 < 16)
    (hne : b0 ≠ b1) (hlv : ∀ g, lv g = 0 ∨ lv g = 1) :
    ((tcpc_get_alert_status A0 A1 lv).testBit b0 = true ↔
      (lv gpio_signal.GPIO_USB_C0_PD_INT_ODL = 0 ∧
        lv gpio_signal.GPIO_USB_C0_PD_RST_L = 1)) ∧
    ((tcpc_get_alert_status A0 A1 lv).testBit b1 = true ↔
      (lv gpio_signal.GPIO_USB_C1_PD_INT_ODL = 0 ∧
        lv gpio_signal.GPIO_USB_C1_PD_RST_L = 1)) ∧
    (∀ i, i ≠ b0 → i ≠ b1 → (tcpc_get_alert_status A0 A1 lv).testBit i = false) := by
  subst hA0 hA1
  have r0 : lv gpio_signal.GPIO_USB_C0_PD_RST_L ≠ 0 ↔
      lv gpio_signal.GPIO_USB_C0_PD_RST_L = 1 := by
    rcases hlv gpio_signal.GPIO_USB_C0_PD_RST_L with h | h <;> simp [h]
  have r1 : lv gpio_signal.GPIO_USB_C1_PD_RST_L ≠ 0 ↔
      lv gpio_signal.GPIO_USB_C1_PD_RST_L = 1 := by
    rcases hlv gpio_signal.GPIO_USB_C1_PD_RST_L with h | h <;> simp [h]
  refine ⟨?_, ?_, ?_⟩
  · rw [alert_status_testBit b0 b1 lv hb0 hb1 b0, r0]
    constructor
    · rintro (h | h)
      · exact h.2
      · exact absurd h.1 hne
    · intro h
      exact Or.inl ⟨rfl, h⟩
  · rw [alert_status_testBit b0 b1 lv hb0 hb1 b1, r1]
    constructor
    · rintro (h | h)
      · exact absurd h.1.symm hne
      · exact h.2
    · intro h
      exact Or.inr ⟨rfl, h⟩
  · intro i h0 h1
    cases hbit : (tcpc_get_alert_status (2 ^ b0) (2 ^ b1) lv).testBit i with
    | false => rfl
    | true =>
      rcases (alert_status_testBit b0 b1 lv hb0 hb1 i).1 hbit with h | h
      · exact absurd h.1 h0
      · exact absurd h.1 h1

theorem alert_status_per_port_witness :
    (2 : Nat) = 2 ^ 1 ∧ (4 : Nat) = 2 ^ 2 ∧ 1 < 16 ∧ 2 < 16 ∧ 1 ≠ 2 ∧
    ((tcpc_get_alert_status 2 4 (tcpc_levels 0 1 1 1)).testBit 1 = true ↔
      (tcpc_levels 0 1 1 1 gpio_signal.GPIO_USB_C0_PD_INT_ODL = 0 ∧
        tcpc_levels 0 1 1 1 gpio_signal.GPIO_USB_C0_PD_RST_L = 1)) :=
  ⟨by decide, by decide, by decide, by decide, by decide,
   (alert_status_per_port 2 4 1 2 (tcpc_levels 0 1 1 1) (by decide) (by decide)
      (by decide) (by decide) (by decide)
      (fun g => by cases g <;> simp [tcpc_levels])).1⟩

/-! ## Theorems: TCPC power and reset sequencing -/

/-- C8: from every starting state, `board_reset_pd_mcu()` makes the same
calls in the same order: both reset lines low, a delay, both TCPC power lines
low, a delay, both TCPC power lines high, a delay, both reset lines high.
Nothing in the list depends on the starting levels and no step is left out.
On return TCPC_PWR and PD_RST_L read 1 on both ports, and every other line
reads what it read before. -/
theorem reset_sequence_is_fixed (s : BoardState) :
    (board_reset_pd_mcu s).calls = s.calls ++
      [BoardCall.gpio_set_level gpio_signal.GPIO_USB_C0_PD_RST_L 0,
       BoardCall.gpio_set_level gpio_signal.GPIO_USB_C1_PD_RST_L 0,
       BoardCall.msleep 1,
       BoardCall.gpio_set_level gpio_signal.GPIO_USB_C0_TCPC_PWR 0,
       BoardCall.gpio_set_level gpio_signal.GPIO_USB_C1_TCPC_PWR 0,
       BoardCall.msleep 10,
       BoardCall.gpio_set_level gpio_signal.GPIO_USB_C0_TCPC_PWR 1,
       BoardCall.gpio_set_level gpio_signal.GPIO_USB_C1_TCPC_PWR 1,
       BoardCall.msleep 10,
       BoardCall.gpio_set_level gpio_signal.GPIO_USB_C0_PD_RST_L 1,
       BoardCall.gpio_set_level gpio_signal.GPIO_USB_C1_PD_RST_L 1] ∧
    (board_reset_pd_mcu s).gpio gpio_signal.GPIO_USB_C0_TCPC_PWR = 1 ∧
    (board_reset_pd_mcu s).gpio gpio_signal.GPIO_USB_C1_TCPC_PWR = 1 ∧
    (board_reset_pd_mcu s).gpio gpio_signal.GPIO_USB_C0_PD_RST_L = 1 ∧
    (board_reset_pd_mcu s).gpio gpio_signal.GPIO_USB_C1_PD_RST_L = 1 ∧
    (∀ g, g ≠ gpio_signal.GPIO_USB_C0_TCPC_PWR → g ≠ gpio_signal.GPIO_USB_C1_TCPC_PWR →
      g ≠ gpio_signal.GPIO_USB_C0_PD_RST_L → g ≠ gpio_signal.GPIO_USB_C1_PD_RST_L →
      (board_reset_pd_mcu s).gpio g = s.gpio g) := by
  refine ⟨?_, ?_, ?_, ?_, ?_, ?_⟩
  · simp [board_reset_pd_mcu, gpio_set_level, msleep]
  · simp [board_reset_pd_mcu, gpio_set_level, msleep]
  · simp [board_reset_pd_mcu, gpio_set_level, msleep]
  · simp [board_reset_pd_mcu, gpio_set_level, msleep]
  · simp [board_reset_pd_mcu, gpio_set_level, msleep]
  · intro g h1 h2 h3 h4
    simp [board_reset_pd_mcu, gpio_set_level, msleep, h1, h2, h3, h4]

/-- The power-off path of `board_set_tcpc_power_mode` waits the same 1 ms
between asserting reset and removing power. -/
theorem power_mode_off_delay (port : Int) (hport : port = 0 ∨ port = 1)
    (gpio : gpio_signal → Int) :
    sleeps (board_set_tcpc_power_mode port 0 (fresh gpio)).calls = [1] := by
  rcases hport with h | h <;>
    simp [h, board_set_tcpc_power_mode, fresh, gpio_set_level, msleep, sleeps]

/-- C10: the deferred cable-detect handler of port `p` posts
`PD_EVENT_TCPC_RESET` exactly when USB_Cp_CABLE_DET reads high (non-zero) and
USB_Cp_PD_RST_L reads low (zero); it then makes the single call
`task_set_event(TASK_ID_PD_Cp, PD_EVENT_TCPC_RESET, 0)`, and otherwise makes no
call, so nothing is ever posted to the other port's task.
`anx74xx_cable_det_interrupt` makes one call, `hook_call_deferred` with a
delay of `2 * MSEC`, for the handler of port 0 when the signal is
GPIO_USB_C0_CABLE_DET and for the handler of port 1 otherwise, and posts no
event. -/
theorem cable_det_wake (PD_EVENT_TCPC_RESET : Nat) (MSEC : Int)
    (lv : gpio_signal → Int) (signal : gpio_signal) :
    (posted_events (anx74xx_c0_cable_det_handler PD_EVENT_TCPC_RESET lv) ≠ [] ↔
      (lv gpio_signal.GPIO_USB_C0_CABLE_DET ≠ 0 ∧ lv gpio_signal.GPIO_USB_C0_PD_RST_L = 0)) ∧
    (anx74xx_c0_cable_det_handler PD_EVENT_TCPC_RESET lv =
      if lv gpio_signal.GPIO_USB_C0_CABLE_DET ≠ 0 ∧ lv gpio_signal.GPIO_USB_C0_PD_RST_L = 0
      then [BoardCall.task_set_event task_id.TASK_ID_PD_C0 PD_EVENT_TCPC_RESET 0]
      else []) ∧
    (∀ t e w, BoardCall.task_set_event t e w
        ∈ anx74xx_c0_cable_det_handler PD_EVENT_TCPC_RESET lv → t = task_id.TASK_ID_PD_C0) ∧
    (posted_events (anx74xx_c1_cable_det_handler PD_EVENT_TCPC_RESET lv) ≠ [] ↔
      (lv gpio_signal.GPIO_USB_C1_CABLE_DET ≠ 0 ∧ lv gpio_signal.GPIO_USB_C1_PD_RST_L = 0)) ∧
    (anx74xx_c1_cable_det_handler PD_EVENT_TCPC_RESET lv =
      if lv gpio_signal.GPIO_USB_C1_CABLE_DET ≠ 0 ∧ lv gpio_signal.GPIO_USB_C1_PD_RST_L = 0
      then [BoardCall.task_set_event task_id.TASK_ID_PD_C1 PD_EVENT_TCPC_RESET 0]
      else []) ∧
    (∀ t e w, BoardCall.task_set_event t e w
        ∈ anx74xx_c1_cable_det_handler PD_EVENT_TCPC_RESET lv → t = task_id.TASK_ID_PD_C1) ∧
    (anx74xx_cable_det_interrupt MSEC signal =
      [BoardCall.hook_call_deferred
        (if signal = gpio_signal.GPIO_USB_C0_CABLE_DET
          then deferred_data.anx74xx_c0_cable_det_handler_data
          else deferred_data.anx74xx_c1_cable_det_handler_data) (2 * MSEC)]) ∧
    posted_events (anx74xx_cable_det_interrupt MSEC signal) = [] := by
  refine ⟨?_, ?_, ?_, ?_, ?_, ?_, ?_, ?_⟩
  · unfold anx74xx_c0_cable_det_handler
    by_cases h : lv gpio_signal.GPIO_USB_C0_CABLE_DET ≠ 0 ∧
        lv gpio_signal.GPIO_USB_C0_PD_RST_L = 0
    · simp [h, posted_events]
    · simp only [if_neg h, posted_events, List.filter_nil, ne_eq, not_true_eq_false, false_iff]
      exact h
  · rfl
  · intro t e w hmem
    simp only [anx74xx_c0_cable_det_handler] at hmem
    split_ifs at hmem <;> simp at hmem
    exact hmem.1
  · unfold anx74xx_c1_cable_det_handler
    by_cases h : lv gpio_signal.GPIO_USB_C1_CABLE_DET ≠ 0 ∧
        lv gpio_signal.GPIO_USB_C1_PD_RST_L = 0
    · simp [h, posted_events]
    · simp only [if_neg h, posted_events, List.filter_nil, ne_eq, not_true_eq_false, false_iff]
      exact h
  · rfl
  · intro t e w hmem
    simp only [anx74xx_c1_cable_det_handler] at hmem
    split_ifs at hmem <;> simp at hmem
    exact hmem.1
  · unfold anx74xx_cable_det_interrupt
    split_ifs <;> rfl
  · unfold anx74xx_cable_det_interrupt
    split_ifs <;> simp [posted_events]

/-! ## Theorems: board version straps -/

/-- The digit returned by `gpio_get_ternary` depends only on the two levels
the pin reads with the pull-down and with the pull-up. -/
theorem gpio_get_ternary_value (w : PinWorld) (gpio : gpio_signal) (s : PinState) :
    (gpio_get_ternary w gpio s).1 =
      if w.level gpio (w.GPIO_INPUT ||| w.GPIO_PULL_UP) ≠ 0 ∧
          w.level gpio (w.GPIO_INPUT ||| w.GPIO_PULL_DOWN) = 0 then 2
      else w.level gpio (w.GPIO_INPUT ||| w.GPIO_PULL_DOWN) := by
  simp [gpio_get_ternary, gpio_get_level, gpio_set_flags, usleep]

/-- After `gpio_get_ternary` the pin has its default flags and every other
pin the flags it had. -/
theorem gpio_get_ternary_flags (w : PinWorld) (gpio : gpio_signal) (s : PinState)
    (g : gpio_signal) :
    (gpio_get_ternary w gpio s).2.flags g =
      if g = gpio then w.gpio_get_default_flags gpio else s.flags g := by
  by_cases h : g = gpio <;>
    simp [gpio_get_ternary, gpio_get_level, gpio_set_flags, usleep, h]

/-- The calls of `gpio_get_ternary`: two samples of the pin, each after a
change of flags and before a wait, then the flags are put back. -/
theorem gpio_get_ternary_calls (w : PinWorld) (gpio : gpio_signal) (s : PinState) :
    (gpio_get_ternary w gpio s).2.calls = s.calls ++
      [GpioCall.gpio_set_flags gpio (w.GPIO_INPUT ||| w.GPIO_PULL_DOWN),
       GpioCall.gpio_get_level gpio,
       GpioCall.usleep 100,
       GpioCall.gpio_set_flags gpio (w.GPIO_INPUT ||| w.GPIO_PULL_UP),
       GpioCall.gpio_get_level gpio,
       GpioCall.usleep 100,
       GpioCall.gpio_set_flags gpio (w.gpio_get_default_flags gpio)] := by
  simp [gpio_get_ternary, gpio_get_level, gpio_set_flags, usleep]

/-- With levels 0 or 1 the digit is 0, 1 or 2. -/
theorem gpio_get_ternary_range (w : PinWorld) (gpio : gpio_signal) (s : PinState)
    (hlv : ∀ g f, w.level g f = 0 ∨ w.level g f = 1) :
    0 ≤ (gpio_get_ternary w gpio s).1 ∧ (gpio_get_ternary w gpio s).1 ≤ 2 := by
  rw [gpio_get_ternary_value]
  rcases hlv gpio (w.GPIO_INPUT ||| w.GPIO_PULL_DOWN) with h | h <;>
  rcases hlv gpio (w.GPIO_INPUT ||| w.GPIO_PULL_UP) with h2 | h2 <;>
  simp [h, h2]

/-- C11: for pin readings `pd` (with the internal pull-down) and `pu` (with
the internal pull-up), `gpio_get_ternary` returns 1 when `pd = 1` whatever
`pu` is, 2 when `pd = 0` and `pu = 1`, and 0 when `pd = 0` and `pu = 0`, which
covers every pair of readings in {0, 1}; on return the flags of the pin are
`gpio_get_default_flags(gpio)`. -/
theorem ternary_decode (w : PinWorld) (gpio : gpio_signal) (s : PinState) (pd pu : Int)
    (hpd : w.level gpio (w.GPIO_INPUT ||| w.GPIO_PULL_DOWN) = pd)
    (hpu : w.level gpio (w.GPIO_INPUT ||| w.GPIO_PULL_UP) = pu) :
    (pd = 1 → (gpio_get_ternary w gpio s).1 = 1) ∧
    (pd = 0 → pu = 1 → (gpio_get_ternary w gpio s).1 = 2) ∧
    (pd = 0 → pu = 0 → (gpio_get_ternary w gpio s).1 = 0) ∧
    (gpio_get_ternary w gpio s).2.flags gpio = w.gpio_get_default_flags gpio := by
  rw [gpio_get_ternary_value, gpio_get_ternary_flags, hpd, hpu]
  refine ⟨?_, ?_, ?_, ?_⟩
  · intro h
    simp [h]
  · intro h h2
    simp [h, h2]
  · intro h h2
    simp [h, h2]
  · simp

theorem ternary_decode_witness :
    (strapped Strap.low Strap.high Strap.floating).level gpio_signal.GPIO_BOARD_VERSION3
      ((strapped Strap.low Strap.high Strap.floating).GPIO_INPUT |||
        (strapped Strap.low Strap.high Strap.floating).GPIO_PULL_DOWN) = 0 ∧
    (strapped Strap.low Strap.high Strap.floating).level gpio_signal.GPIO_BOARD_VERSION3
      ((strapped Strap.low Strap.high Strap.floating).GPIO_INPUT |||
        (strapped Strap.low Strap.high Strap.floating).GPIO_PULL_UP) = 1 ∧
    (gpio_get_ternary (strapped Strap.low Strap.high Strap.floating)
      gpio_signal.GPIO_BOARD_VERSION3 (fresh_pins default_flags)).1 = 2 :=
  ⟨by decide, by decide,
   (ternary_decode (strapped Strap.low Strap.high Strap.floating)
      gpio_signal.GPIO_BOARD_VERSION3 (fresh_pins default_flags) 0 1
      (by decide) (by decide)).2.1 rfl rfl⟩

/-- A call with the version already known returns it and does nothing
else. -/
theorem version_cached_when_nonzero (w : PinWorld) (ver : Int) (s : PinState)
    (h : ver ≠ 0) :
    (board_get_version w ver s).ret = ver ∧
    (board_get_version w ver s).ver = ver ∧
    (board_get_version w ver s).state.calls = s.calls ∧
    (board_get_version w ver s).state.flags = s.flags := by
  simp [board_get_version, h]

/-- The value computed by a call that finds `ver = 0`, in terms of the three
digits. -/
theorem version_computed (w : PinWorld) (s : PinState) :
    (board_get_version w 0 s).ret =
      ((gpio_get_ternary w gpio_signal.GPIO_BOARD_VERSION3 s).1 % 256) * 9 +
      ((gpio_get_ternary w gpio_signal.GPIO_BOARD_VERSION2 s).1 % 256) * 3 +
      (gpio_get_ternary w gpio_signal.GPIO_BOARD_VERSION1 s).1 % 256 ∧
    (board_get_version w 0 s).ver = (board_get_version w 0 s).ret := by
  simp only [board_get_version, if_true, gpio_get_ternary_value, and_self]

/-- With levels 0 or 1, the digit `gpio_get_ternary` returns for a pin is the
digit of its strapping, from whatever state it is called. -/
theorem gpio_get_ternary_is_strap_digit (w : PinWorld) (gpio : gpio_signal) (s : PinState)
    (hlv : ∀ g f, w.level g f = 0 ∨ w.level g f = 1) :
    (gpio_get_ternary w gpio s).1 =
      spec_ternary_digit (pull_down_reading w gpio) (pull_up_reading w gpio) := by
  rw [gpio_get_ternary_value]
  unfold spec_ternary_digit pull_down_reading pull_up_reading
  rcases hlv gpio (w.GPIO_INPUT ||| w.GPIO_PULL_DOWN) with h | h <;>
  rcases hlv gpio (w.GPIO_INPUT ||| w.GPIO_PULL_UP) with h2 | h2 <;>
  simp [h, h2]

/-- C12: for every strapping of the three version pins (each pin reading 0 or
1 with the pull-down and with the pull-up), the first call of
`board_get_version()` returns `id2*9 + id1*3 + id0`, where `id0`, `id1`,
`id2` are the ternary digits of the strapping of GPIO_BOARD_VERSION1,
GPIO_BOARD_VERSION2 and GPIO_BOARD_VERSION3 (1 for a pin read 1 with the
pull-down, 2 for a pin read 0 with the pull-down and 1 with the pull-up, 0
for a pin read 0 both times), and these are the digits `gpio_get_ternary`
returns for the three pins. The result lies in 0..26, and two strappings that
differ in a digit give different versions. -/
theorem version_is_base_three (w : PinWorld) (s : PinState)
    (hlv : ∀ g f, w.level g f = 0 ∨ w.level g f = 1) :
    (board_get_version w ver_at_boot s).ret =
      spec_ternary_digit (pull_down_reading w gpio_signal.GPIO_BOARD_VERSION3)
          (pull_up_reading w gpio_signal.GPIO_BOARD_VERSION3) * 9 +
      spec_ternary_digit (pull_down_reading w gpio_signal.GPIO_BOARD_VERSION2)
          (pull_up_reading w gpio_signal.GPIO_BOARD_VERSION2) * 3 +
      spec_ternary_digit (pull_down_reading w gpio_signal.GPIO_BOARD_VERSION1)
          (pull_up_reading w gpio_signal.GPIO_BOARD_VERSION1) ∧
    (board_get_version w ver_at_boot s).ret = spec_version w ∧
    ((gpio_get_ternary w gpio_signal.GPIO_BOARD_VERSION1 s).1 =
        spec_ternary_digit (pull_down_reading w gpio_signal.GPIO_BOARD_VERSION1)
          (pull_up_reading w gpio_signal.GPIO_BOARD_VERSION1) ∧
      (gpio_get_ternary w gpio_signal.GPIO_BOARD_VERSION2 s).1 =
        spec_ternary_digit (pull_down_reading w gpio_signal.GPIO_BOARD_VERSION2)
          (pull_up_reading w gpio_signal.GPIO_BOARD_VERSION2) ∧
      (gpio_get_ternary w gpio_signal.GPIO_BOARD_VERSION3 s).1 =
        spec_ternary_digit (pull_down_reading w gpio_signal.GPIO_BOARD_VERSION3)
          (pull_up_reading w gpio_signal.GPIO_BOARD_VERSION3)) ∧
    (board_get_version w ver_at_boot s).ret =
      (gpio_get_ternary w gpio_signal.GPIO_BOARD_VERSION3 s).1 * 9 +
      (gpio_get_ternary w gpio_signal.GPIO_BOARD_VERSION2 s).1 * 3 +
      (gpio_get_ternary w gpio_signal.GPIO_BOARD_VERSION1 s).1 ∧
    (0 ≤ (board_get_version w ver_at_boot s).ret ∧
      (board_get_version w ver_at_boot s).ret ≤ 26) ∧
    (∀ (w2 : PinWorld) (s2 : PinState),
      (∀ g f, w2.level g f = 0 ∨ w2.level g f = 1) →
      (spec_ternary_digit (pull_down_reading w gpio_signal.GPIO_BOARD_VERSION1)
            (pull_up_reading w gpio_signal.GPIO_BOARD_VERSION1)
          ≠ spec_ternary_digit (pull_down_reading w2 gpio_signal.GPIO_BOARD_VERSION1)
            (pull_up_reading w2 gpio_signal.GPIO_BOARD_VERSION1) ∨
        spec_ternary_digit (pull_down_reading w gpio_signal.GPIO_BOARD_VERSION2)
            (pull_up_reading w gpio_signal.GPIO_BOARD_VERSION2)
          ≠ spec_ternary_digit (pull_down_reading w2 gpio_signal.GPIO_BOARD_VERSION2)
            (pull_up_reading w2 gpio_signal.GPIO_BOARD_VERSION2) ∨
        spec_ternary_digit (pull_down_reading w gpio_signal.GPIO_BOARD_VERSION3)
            (pull_up_reading w gpio_signal.GPIO_BOARD_VERSION3)
          ≠ spec_ternary_digit (pull_down_reading w2 gpio_signal.GPIO_BOARD_VERSION3)
            (pull_up_reading w2 gpio_signal.GPIO_BOARD_VERSION3)) →
      (board_get_version w ver_at_boot s).ret
        ≠ (board_get_version w2 ver_at_boot s2).ret) ∧
    (∀ (w2 : PinWorld) (s2 : PinState),
      (∀ g f, w2.level g f = 0 ∨ w2.level g f = 1) →
      (board_get_version w ver_at_boot s).ret = (board_get_version w2 ver_at_boot s2).ret →
      (gpio_get_ternary w gpio_signal.GPIO_BOARD_VERSION1 s).1
        = (gpio_get_ternary w2 gpio_signal.GPIO_BOARD_VERSION1 s2).1 ∧
      (gpio_get_ternary w gpio_signal.GPIO_BOARD_VERSION2 s).1
        = (gpio_get_ternary w2 gpio_signal.GPIO_BOARD_VERSION2 s2).1 ∧
      (gpio_get_ternary w gpio_signal.GPIO_BOARD_VERSION3 s).1
        = (gpio_get_ternary w2 gpio_signal.GPIO_BOARD_VERSION3 s2).1) := by
  have a1 := gpio_get_ternary_range w gpio_signal.GPIO_BOARD_VERSION1 s hlv
  have a2 := gpio_get_ternary_range w gpio_signal.GPIO_BOARD_VERSION2 s hlv
  have a3 := gpio_get_ternary_range w gpio_signal.GPIO_BOARD_VERSION3 s hlv
  have d1 := gpio_get_ternary_is_strap_digit w gpio_signal.GPIO_BOARD_VERSION1 s hlv
  have d2 := gpio_get_ternary_is_strap_digit w gpio_signal.GPIO_BOARD_VERSION2 s hlv
  have d3 := gpio_get_ternary_is_strap_digit w gpio_signal.GPIO_BOARD_VERSION3 s hlv
  have e := (version_computed w s).1
  unfold ver_at_boot spec_version
  refine ⟨by omega, by omega, ⟨d1, d2, d3⟩, by omega, by omega, ?_, ?_⟩
  · intro w2 s2 hlv2 hdiff
    have b1 := gpio_get_ternary_range w2 gpio_signal.GPIO_BOARD_VERSION1 s2 hlv2
    have b2 := gpio_get_ternary_range w2 gpio_signal.GPIO_BOARD_VERSION2 s2 hlv2
    have b3 := gpio_get_ternary_range w2 gpio_signal.GPIO_BOARD_VERSION3 s2 hlv2
    have f1 := gpio_get_ternary_is_strap_digit w2 gpio_signal.GPIO_BOARD_VERSION1 s2 hlv2
    have f2 := gpio_get_ternary_is_strap_digit w2 gpio_signal.GPIO_BOARD_VERSION2 s2 hlv2
    have f3 := gpio_get_ternary_is_strap_digit w2 gpio_signal.GPIO_BOARD_VERSION3 s2 hlv2
    have e2 := (version_computed w2 s2).1
    omega
  · intro w2 s2 hlv2 heq
    have b1 := gpio_get_ternary_range w2 gpio_signal.GPIO_BOARD_VERSION1 s2 hlv2
    have b2 := gpio_get_ternary_range w2 gpio_signal.GPIO_BOARD_VERSION2 s2 hlv2
    have b3 := gpio_get_ternary_range w2 gpio_signal.GPIO_BOARD_VERSION3 s2 hlv2
    have e2 := (version_computed w2 s2).1
    refine ⟨by omega, by omega, by omega⟩

/-- On the example board every level is 0 or 1. -/
theorem strapped_levels_binary (v1 v2 v3 : Strap) (g : gpio_signal) (f : Nat) :
    (strapped v1 v2 v3).level g f = 0 ∨ (strapped v1 v2 v3).level g f = 1 := by
  cases g <;> cases v1 <;> cases v2 <;> cases v3 <;>
    simp only [strapped] <;> simp

theorem version_is_base_three_witness :
    (board_get_version (strapped Strap.low Strap.high Strap.floating) ver_at_boot
        (fresh_pins default_flags)).ret = 21 ∧
    (board_get_version (strapped Strap.floating Strap.floating Strap.floating) ver_at_boot
        (fresh_pins default_flags)).ret = 26 ∧
    (board_get_version (strapped Strap.high Strap.low Strap.low) ver_at_boot
        (fresh_pins default_flags)).ret = 1 :=
  ⟨(version_is_base_three (strapped Strap.low Strap.high Strap.floating)
      (fresh_pins default_flags)
      (strapped_levels_binary Strap.low Strap.high Strap.floating)).1.trans (by decide),
   (version_is_base_three (strapped Strap.floating Strap.floating Strap.floating)
      (fresh_pins default_flags)
      (strapped_levels_binary Strap.floating Strap.floating Strap.floating)).1.trans
        (by decide),
   (version_is_base_three (strapped Strap.high Strap.low Strap.low)
      (fresh_pins default_flags)
      (strapped_levels_binary Strap.high Strap.low Strap.low)).1.trans (by decide)⟩

/-- C13, the failing input evaluated: with the three version pins strapped low
the version is 0, and of two successive calls of `board_get_version()` from
boot both return 0 and both sample the pins, six `gpio_get_level` calls
each. -/
theorem version_zero_is_sampled_again :
    (run_board_get_version (strapped Strap.low Strap.low Strap.low) 2 ver_at_boot
        default_flags).map (fun r => (r.1, (sampling_calls r.2).length))
      = [(0, 6), (0, 6)] := by
  decide

/-! ## Theorems: charge limit and ramp policy -/

/-- A product that fits a 32-bit `int` is not changed by the wrap. -/
theorem int32_of_fits (x : Int) (h0 : 0 ≤ x) (h1 : x < 2 ^ 31) : int32 x = x := by
  unfold int32
  omega

/-- `MAX` is the larger of its two arguments. -/
theorem MAX_eq_max (a b : Int) : MAX a b = max a b := by
  unfold MAX
  split_ifs with h
  · exact (max_eq_left (le_of_lt h)).symm
  · exact (max_eq_right (not_lt.mp h)).symm

/-- C14: for every port, supplier and charge_mv and every non-negative
charge_ma whose product with 95 fits an `int`: when
`bd9995x_bc12_enable_charging` succeeds (returns 0), `board_set_charge_limit`
programs exactly one input current limit, the larger of `(charge_ma*95)/100`
(truncating division) and `CONFIG_CHARGER_INPUT_CURRENT`, with voltage
charge_mv; that limit is at least `CONFIG_CHARGER_INPUT_CURRENT` and at most
the larger of charge_ma and `CONFIG_CHARGER_INPUT_CURRENT`. When
`bd9995x_bc12_enable_charging` fails, no limit is programmed. -/
theorem charge_limit_derated_and_floored (sup : ChargeSuppliers)
    (CONFIG_CHARGER_INPUT_CURRENT : Int) (bc12_result : Int → Int → Int)
    (port supplier charge_ma max_ma charge_mv : Int)
    (hnn : 0 ≤ charge_ma) (hfit : charge_ma * 95 < 2 ^ 31) :
    (bc12_result port (bc12_enable sup supplier) = 0 →
      programmed_limits
          (board_set_charge_limit sup CONFIG_CHARGER_INPUT_CURRENT bc12_result
            port supplier charge_ma max_ma charge_mv)
        = [(max (Int.tdiv (charge_ma * 95) 100) CONFIG_CHARGER_INPUT_CURRENT, charge_mv)]) ∧
    CONFIG_CHARGER_INPUT_CURRENT
      ≤ max (Int.tdiv (charge_ma * 95) 100) CONFIG_CHARGER_INPUT_CURRENT ∧
    max (Int.tdiv (charge_ma * 95) 100) CONFIG_CHARGER_INPUT_CURRENT
      ≤ max charge_ma CONFIG_CHARGER_INPUT_CURRENT ∧
    (bc12_result port (bc12_enable sup supplier) ≠ 0 →
      programmed_limits
          (board_set_charge_limit sup CONFIG_CHARGER_INPUT_CURRENT bc12_result
            port supplier charge_ma max_ma charge_mv)
        = []) := by
  have hprod : 0 ≤ charge_ma * 95 := by omega
  have hdiv : Int.tdiv (charge_ma * 95) 100 = charge_ma * 95 / 100 :=
    Int.tdiv_eq_ediv hprod (by decide)
  refine ⟨?_, ?_, ?_, ?_⟩
  · intro hok
    simp only [board_set_charge_limit, hok, ne_eq, not_true_eq_false, if_false,
      programmed_limits, int32_of_fits _ hprod hfit, MAX_eq_max]
  · exact le_max_right _ _
  · rw [hdiv]
    apply max_le_max _ (le_refl _)
    omega
  · intro hfail
    simp only [board_set_charge_limit, ne_eq, hfail, not_false_eq_true, if_true,
      programmed_limits]

theorem charge_limit_derated_and_floored_witness :
    (0 : Int) ≤ 3000 ∧ (3000 : Int) * 95 < 2 ^ 31 ∧
    programmed_limits
        (board_set_charge_limit suppliers_example CONFIG_MIN_EXAMPLE (fun _ _ => 0)
          0 2 3000 3000 5000)
      = [(max (Int.tdiv (3000 * 95) 100) CONFIG_MIN_EXAMPLE, 5000)] :=
  ⟨by decide, by decide,
   (charge_limit_derated_and_floored suppliers_example CONFIG_MIN_EXAMPLE (fun _ _ => 0)
      0 2 3000 3000 5000 (by decide) (by decide)).1 rfl⟩

/-- C15: for every supplier and every image state,
`board_is_ramp_allowed(supplier)` is non-zero exactly when the supplier is one
of CHARGE_SUPPLIER_BC12_DCP, CHARGE_SUPPLIER_BC12_SDP, CHARGE_SUPPLIER_BC12_CDP
and CHARGE_SUPPLIER_OTHER and it is not the case that both
`system_get_image_copy() != SYSTEM_IMAGE_RW` and `system_is_locked()` hold; in
that case it returns 0 for every supplier. -/
theorem ramp_allowed_iff (sup : ChargeSuppliers)
    (SYSTEM_IMAGE_RW system_get_image_copy system_is_locked supplier : Int) :
    (board_is_ramp_allowed sup SYSTEM_IMAGE_RW system_get_image_copy system_is_locked
        supplier ≠ 0 ↔
      ((supplier = sup.CHARGE_SUPPLIER_BC12_DCP ∨
        supplier = sup.CHARGE_SUPPLIER_BC12_SDP ∨
        supplier = sup.CHARGE_SUPPLIER_BC12_CDP ∨
        supplier = sup.CHARGE_SUPPLIER_OTHER) ∧
       ¬ (system_get_image_copy ≠ SYSTEM_IMAGE_RW ∧ system_is_locked ≠ 0))) ∧
    ((system_get_image_copy ≠ SYSTEM_IMAGE_RW ∧ system_is_locked ≠ 0) →
      ∀ any_supplier : Int,
        board_is_ramp_allowed sup SYSTEM_IMAGE_RW system_get_image_copy system_is_locked
          any_supplier = 0) := by
  refine ⟨?_, ?_⟩
  · unfold board_is_ramp_allowed
    by_cases hro : system_get_image_copy ≠ SYSTEM_IMAGE_RW ∧ system_is_locked ≠ 0
    · simp [hro]
    · by_cases hs : supplier = sup.CHARGE_SUPPLIER_BC12_DCP ∨
          supplier = sup.CHARGE_SUPPLIER_BC12_SDP ∨
          supplier = sup.CHARGE_SUPPLIER_BC12_CDP ∨
          supplier = sup.CHARGE_SUPPLIER_OTHER
      · rw [if_neg hro, if_pos hs]
        exact ⟨fun _ => ⟨hs, hro⟩, fun _ => by decide⟩
      · rw [if_neg hro, if_neg hs]
        exact ⟨fun h => absurd rfl h, fun h => absurd h.1 hs⟩
  · intro hro any_supplier
    unfold board_is_ramp_allowed
    rw [if_pos hro]

/-! ## Theorems: trackpad wake -/

/-- Every argument a caller hands to `trackpad_wake_enable` is 0 or 1, or is
the enable flag that `lid_angle_peripheral_enable` was itself given. -/
theorem wake_argument_is_flag (c : WakeCaller) (a : Int)
    (h : wake_argument c = some a) :
    a = 0 ∨ a = 1 ∨ ∃ t o sus, c = WakeCaller.lid_angle_peripheral_enable a t o sus := by
  cases c with
  | lid_angle_peripheral_enable enable t o sus =>
    simp only [wake_argument, Option.some.injEq] at h
    by_cases hs : sus = 0
    · rw [if_pos hs] at h
      exact Or.inl h.symm
    · rw [if_neg hs] at h
      by_cases ht : t ≠ 0 ∨ o ≠ 0
      · rw [if_pos ht] at h
        exact Or.inl h.symm
      · rw [if_neg ht] at h
        subst h
        exact Or.inr (Or.inr ⟨t, o, sus, rfl⟩)
  | board_chipset_shutdown =>
    simp only [wake_argument, Option.some.injEq] at h
    exact Or.inl h.symm
  | board_chipset_suspend t l =>
    simp only [wake_argument] at h
    split_ifs at h
    simp only [Option.some.injEq] at h
    exact Or.inr (Or.inl h.symm)
  | board_chipset_resume =>
    simp only [wake_argument, Option.some.injEq] at h
    exact Or.inl h.symm
  | board_lid_change l =>
    simp only [wake_argument] at h
    split_ifs at h
    simp only [Option.some.injEq] at h
    exact Or.inl h.symm

/-- The one argument a first call after boot skips is -1, the value
`prev_enable` starts with; by `wake_argument_is_flag` no caller passes it
unless `lid_angle_peripheral_enable` is itself given -1 as its flag. -/
theorem initial_value_as_argument_is_skipped :
    (trackpad_wake_enable prev_enable_at_boot (-1)).calls = [] := by
  decide

/-- C16: a call `trackpad_wake_enable(e)` made right after a call with the
same `e` makes no GPIO interrupt call (no clear-pending, enable or disable)
and leaves `prev_enable` as it was, for every `e` and whatever came before.
The first call after boot performs the hardware operation: with 0 it disables
the interrupt, with 1 it clears the pending interrupt and then enables it,
and the same holds (clear-pending then enable for a non-zero `e`, disable for
0) for every `e` other than the -1 that `prev_enable` starts with. The callers
in board.c pass 0 or 1, `lid_angle_peripheral_enable` passing 0 or the enable
flag it was given, so with a 0/1 flag the first call made by any caller
performs the operation. -/
theorem trackpad_wake_skips_repeats (prev e : Int) :
    ((trackpad_wake_enable (trackpad_wake_enable prev e).prev_enable e).calls = [] ∧
      (trackpad_wake_enable (trackpad_wake_enable prev e).prev_enable e).prev_enable
        = (trackpad_wake_enable prev e).prev_enable) ∧
    (trackpad_wake_enable prev e).prev_enable = e ∧
    ((trackpad_wake_enable prev_enable_at_boot 0).calls =
        [GpioCall.gpio_disable_interrupt gpio_signal.GPIO_TRACKPAD_INT_L] ∧
      (trackpad_wake_enable prev_enable_at_boot 1).calls =
        [GpioCall.gpio_clear_pending_interrupt gpio_signal.GPIO_TRACKPAD_INT_L,
         GpioCall.gpio_enable_interrupt gpio_signal.GPIO_TRACKPAD_INT_L]) ∧
    (e ≠ -1 →
      (trackpad_wake_enable prev_enable_at_boot e).calls =
        (if e ≠ 0 then
          [GpioCall.gpio_clear_pending_interrupt gpio_signal.GPIO_TRACKPAD_INT_L,
           GpioCall.gpio_enable_interrupt gpio_signal.GPIO_TRACKPAD_INT_L]
         else
          [GpioCall.gpio_disable_interrupt gpio_signal.GPIO_TRACKPAD_INT_L]) ∧
      (trackpad_wake_enable prev_enable_at_boot e).prev_enable = e) ∧
    (∀ (c : WakeCaller) (a : Int), wake_argument c = some a →
      (∀ flag t o sus, c = WakeCaller.lid_angle_peripheral_enable flag t o sus →
        flag = 0 ∨ flag = 1) →
      (a = 0 ∨ a = 1) ∧
      (trackpad_wake_enable prev_enable_at_boot a).calls =
        (if a ≠ 0 then
          [GpioCall.gpio_clear_pending_interrupt gpio_signal.GPIO_TRACKPAD_INT_L,
           GpioCall.gpio_enable_interrupt gpio_signal.GPIO_TRACKPAD_INT_L]
         else
          [GpioCall.gpio_disable_interrupt gpio_signal.GPIO_TRACKPAD_INT_L])) := by
  have hcache : (trackpad_wake_enable prev e).prev_enable = e := by
    unfold trackpad_wake_enable
    by_cases h : prev = e
    · rw [if_pos h]
      exact h
    · rw [if_neg h]
  have hfirst : ∀ x : Int, x ≠ -1 →
      (trackpad_wake_enable prev_enable_at_boot x).calls =
        (if x ≠ 0 then
          [GpioCall.gpio_clear_pending_interrupt gpio_signal.GPIO_TRACKPAD_INT_L,
           GpioCall.gpio_enable_interrupt gpio_signal.GPIO_TRACKPAD_INT_L]
         else
          [GpioCall.gpio_disable_interrupt gpio_signal.GPIO_TRACKPAD_INT_L]) ∧
      (trackpad_wake_enable prev_enable_at_boot x).prev_enable = x := by
    intro x hne
    have hb : ¬ prev_enable_at_boot = x := fun h => hne (by rw [← h]; rfl)
    simp only [trackpad_wake_enable, if_neg hb, and_self]
  refine ⟨?_, hcache, ⟨by decide, by decide⟩, hfirst e, ?_⟩
  · rw [hcache]
    simp [trackpad_wake_enable]
  · intro c a harg hflag
    have h01 : a = 0 ∨ a = 1 := by
      rcases wake_argument_is_flag c a harg with h | h | ⟨t, o, sus, hc⟩
      · exact Or.inl h
      · exact Or.inr h
      · exact hflag a t o sus hc
    refine ⟨h01, (hfirst a ?_).1⟩
    rcases h01 with h | h <;> rw [h] <;> decide

theorem trackpad_wake_skips_repeats_witness :
    (trackpad_wake_enable (trackpad_wake_enable prev_enable_at_boot 1).prev_enable 1).calls
      = [] ∧
    (1 : Int) ≠ -1 ∧
    (trackpad_wake_enable prev_enable_at_boot 1).prev_enable = 1 ∧
    wake_argument (WakeCaller.board_chipset_suspend 0 1) = some 1 ∧
    ((1 : Int) = 0 ∨ (1 : Int) = 1) :=
  ⟨(trackpad_wake_skips_repeats prev_enable_at_boot 1).1.1,
   by decide,
   ((trackpad_wake_skips_repeats prev_enable_at_boot 1).2.2.2.1 (by decide)).2,
   by decide,
   ((trackpad_wake_skips_repeats prev_enable_at_boot 1).2.2.2.2
      (WakeCaller.board_chipset_suspend 0 1) 1 (by decide)
      (fun _ _ _ _ h => by cases h)).1⟩

end Eve
